import Mathlib

/-!
Verification of the Reltio MCP server's shared request pipeline and tool
layer, shallowly embedded from the Python sources (src/util/api.py,
src/util/auth.py, src/util/models.py, src/tools/*.py).  Python dictionaries
are modelled as ordered association lists, Python ints as Int, JSON values
as the inductive PyVal, and the network as an oracle supplying the outcome
of each outbound HTTP interaction.  Each tool function is embedded together
with the ordered list of network effects (token fetches and HTTP calls) it
performs, so that claims about which requests are or are not issued can be
stated and proved.
-/

/-- A Python/JSON value as the server manipulates it: None, booleans,
integers, strings, lists, and dicts (ordered association lists, as Python
dicts preserve insertion order and the code never creates duplicate keys). -/
inductive PyVal where
  | none : PyVal
  | bool : Bool → PyVal
  | int : Int → PyVal
  | str : String → PyVal
  | list : List PyVal → PyVal
  | dict : List (String × PyVal) → PyVal
deriving Repr, BEq

/-- Python truthiness of a JSON value: None, False, 0, the empty string, the
empty list and the empty dict are falsy; everything else is truthy. -/
def pyFalsy : PyVal → Bool
  | PyVal.none => true
  | PyVal.bool b => !b
  | PyVal.int n => n == 0
  | PyVal.str s => s.isEmpty
  | PyVal.list l => l.isEmpty
  | PyVal.dict d => d.isEmpty

/-- Dictionary lookup (first matching key; Python dicts have unique keys). -/
def pyGet (d : List (String × PyVal)) (k : String) : Option PyVal :=
  match d with
  | [] => Option.none
  | (a, v) :: rest => if a = k then Option.some v else pyGet rest k

/-- The single-quote character, written by code point to keep source strings
free of quote characters. -/
def sQuote : String := String.singleton (Char.ofNat 39)

/-- Does the character list `l` start with `pat`? -/
def listStartsWith : List Char → List Char → Bool
  | _, [] => true
  | [], _ :: _ => false
  | a :: as, b :: bs => a == b && listStartsWith as bs

/-- Does `pat` occur as a contiguous run inside `l`? -/
def listContainsSub : List Char → List Char → Bool
  | [], pat => pat.isEmpty
  | l@(_ :: t), pat => listStartsWith l pat || listContainsSub t pat

/-- Substring test modelling the Python `in` operator on strings. -/
def strContains (s pat : String) : Bool :=
  listContainsSub s.toList pat.toList

/-- The characters removed by the sanitisation regex in
src/util/models.py (`<`, `>`, single quote, double quote, `;`), the quote
characters written by code point. -/
def dangerousChars : List Char :=
  ['<', '>', Char.ofNat 39, Char.ofNat 34, ';']

/-- `re.sub` of the dangerous-character class with the empty string: every
occurrence of one of the characters is removed, the rest kept in order. -/
def sanitizeDangerous (s : String) : String :=
  String.mk (s.toList.filter (fun c => !(dangerousChars.contains c)))

/-! ## src/util/api.py -/

/-- The trailing segment after the last slash, i.e. `s.split("/")[-1]`:
the whole string when no slash occurs. -/
def lastSlashSegment (s : String) : String :=
  String.mk ((s.toList.reverse.takeWhile (fun c => c != '/')).reverse)

/-- `extract_entity_id` from src/util/api.py: the empty URI gives "N/A",
otherwise the trailing path segment (`uri.split("/")[-1]`). -/
def extract_entity_id (uri : String) : String :=
  if uri = "" then "N/A" else lastSlashSegment uri

/-- `extract_relation_id` from src/util/api.py (same computation). -/
def extract_relation_id (uri : String) : String :=
  if uri = "" then "N/A" else lastSlashSegment uri

/-- `get_reltio_url` from src/util/api.py.  The module-level environment
variable RELTIO_ENVIRONMENT is threaded as the explicit first argument. -/
def get_reltio_url (environment path partial_path tenant : String) : String :=
  "https://" ++ environment ++ ".reltio.com/reltio/" ++ partial_path ++ "/"
    ++ tenant ++ "/" ++ path

/-- The ERROR_CODES table of src/constants.py as a total function;
`ERROR_CODES.get(code_key, 500)` defaults to 500 for unknown keys. -/
def errorCode : String → Int
  | "VALIDATION_ERROR" => 400
  | "AUTHENTICATION_ERROR" => 401
  | "AUTHORIZATION_ERROR" => 403
  | "RESOURCE_NOT_FOUND" => 404
  | "TIMEOUT_ERROR" => 408
  | "CONFLICT_ERROR" => 409
  | "RATE_LIMIT_ERROR" => 429
  | "SERVER_ERROR" => 500
  | "SERVICE_UNAVAILABLE" => 503
  | _ => 500

/-- `create_error_response` from src/util/api.py.  `details` values are
stringified by the source (`str(value)`); the embedding takes them already
as strings.  Only the safe-listed keys are kept. -/
def create_error_response (code_key message : String)
    (details : List (String × String)) : PyVal :=
  let safe := details.filter
    (fun p => p.1 == "field" || p.1 == "resource" || p.1 == "error_type")
  PyVal.dict [("error", PyVal.dict
    [ ("code", PyVal.int (errorCode code_key)),
      ("code_key", PyVal.str code_key),
      ("message", PyVal.str message),
      ("details", PyVal.dict (safe.map (fun p => (p.1, PyVal.str p.2)))) ])]

/-! ## src/tools/util.py : simplify_reltio_attributes -/

mutual

/-- `simplify_reltio_attributes` from src/tools/util.py.  For each attribute
name whose value is a non-empty list, the list entries that are dicts
containing a "value" key are kept (in order); an entry whose value is itself
a dict is simplified recursively.  A resulting singleton list collapses to
the bare value; an empty resulting list drops the name entirely; names whose
value is not a non-empty list are likewise dropped. -/
def simplify_reltio_attributes : List (String × PyVal) → List (String × PyVal)
  | [] => []
  | (key, PyVal.list (v :: vs)) :: rest =>
      match simplifyReltioItems (v :: vs) with
      | [] => simplify_reltio_attributes rest
      | [x] => (key, x) :: simplify_reltio_attributes rest
      | x :: y :: t => (key, PyVal.list (x :: y :: t)) :: simplify_reltio_attributes rest
  | _ :: rest => simplify_reltio_attributes rest

/-- The inner loop over a value-list: keep dict items having a "value" key,
simplified; skip everything else. -/
def simplifyReltioItems : List PyVal → List PyVal
  | [] => []
  | PyVal.dict d :: rest =>
      match simplifyReltioValue d with
      | Option.some w => w :: simplifyReltioItems rest
      | Option.none => simplifyReltioItems rest
  | _ :: rest => simplifyReltioItems rest

/-- Find the "value" entry of an item dict and simplify it in place:
a dict value recurses into the attribute simplifier, any other value is
returned unchanged; absence of the key gives none. -/
def simplifyReltioValue : List (String × PyVal) → Option PyVal
  | [] => Option.none
  | (k, v) :: rest =>
      if k = "value" then
        Option.some (match v with
          | PyVal.dict dd => PyVal.dict (simplify_reltio_attributes dd)
          | w => w)
      else simplifyReltioValue rest

end

/-! ## Identifier patterns from src/constants.py -/

/-- A character allowed by ENTITY_ID_PATTERN and RELATION_ID_PATTERN
(`[a-zA-Z0-9-_/]`). -/
def entityIdChar (c : Char) : Bool :=
  c.isAlphanum || c == '-' || c == '_' || c == '/'

/-- ENTITY_ID_PATTERN `[a-zA-Z0-9-_/], 5 to 30 characters`, anchored. -/
def matchesEntityIdPattern (s : String) : Bool :=
  decide (5 ≤ s.length) && decide (s.length ≤ 30) && s.toList.all entityIdChar

/-- RELATION_ID_PATTERN is textually identical to ENTITY_ID_PATTERN. -/
def matchesRelationIdPattern (s : String) : Bool :=
  decide (5 ≤ s.length) && decide (s.length ≤ 30) && s.toList.all entityIdChar

/-- A character allowed by TENANT_ID_PATTERN (`[a-zA-Z0-9-_]`, no slash). -/
def tenantIdChar (c : Char) : Bool :=
  c.isAlphanum || c == '-' || c == '_'

/-- TENANT_ID_PATTERN `[a-zA-Z0-9-_], 3 to 30 characters`, anchored. -/
def matchesTenantIdPattern (s : String) : Bool :=
  decide (3 ≤ s.length) && decide (s.length ≤ 30) && s.toList.all tenantIdChar

/-! ## src/util/models.py : EntityIdRequest and friends

Pydantic validates the StringConstraints pattern during core field
validation and only afterwards runs the (mode-after) field validator that
strips a URI prefix, so the pattern is applied to the raw supplied string
and the extraction happens second. -/

/-- The entity_id field of EntityIdRequest (also RejectMatchRequest's
source_id/target_id and UnmergeEntityRequest's ids): pattern check on the
raw value first, then `extract_entity_id`. -/
def entityIdField (v : String) : Except String String :=
  if matchesEntityIdPattern v then Except.ok (extract_entity_id v)
  else Except.error "String should match pattern"

/-- The relation_id field of RelationIdRequest: pattern check on the raw
value first, then `extract_relation_id`. -/
def relationIdField (v : String) : Except String String :=
  if matchesRelationIdPattern v then Except.ok (extract_relation_id v)
  else Except.error "String should match pattern"

/-- The tenant_id field (pattern only, no transformation). -/
def tenantIdField (v : String) : Except String String :=
  if matchesTenantIdPattern v then Except.ok v
  else Except.error "String should match pattern"

/-! ## src/util/api.py : the security gate and the HTTP executor -/

/-- Request headers as an ordered association list. -/
abbrev Headers : Type := List (String × String)

/-- Key membership in a headers dict (Python `key in headers`). -/
def headersHasKey (h : Headers) (k : String) : Bool :=
  (List.any h (fun p => p.1 == k))

/-- Header lookup. -/
def headersGet (h : Headers) (k : String) : Option String :=
  (h.find? (fun p => p.1 == k)).map Prod.snd

/-- The truthiness-plus-membership test of `if headers and "Authorization"
in headers` in src/util/api.py, over the optional headers argument. -/
def headersHaveAuth : Option Headers → Bool
  | Option.none => false
  | Option.some h => !(List.isEmpty h) && headersHasKey h "Authorization"

/-- ALLOWED_ORIGINS from src/constants.py. -/
def ALLOWED_ORIGINS : List String :=
  ["https://app.reltio.com", "https://api.reltio.com"]

/-- The scheme of a URL as urlparse reports it for the URLs this code
builds: the text before the first colon when the URL has a "://" separator,
empty otherwise. -/
def urlScheme (url : String) : String :=
  if strContains url "://" then
    String.mk (url.toList.takeWhile (fun c => c != ':'))
  else ""

/-- `validate_connection_security` from src/util/api.py: REQUIRE_TLS is
True, so a non-https scheme is a SecurityError; a supplied Origin header
must be allow-listed.  Ok means the source returned True. -/
def validate_connection_security (url : String) (headers : Headers) :
    Except String Unit :=
  if urlScheme url != "https" then Except.error "Insecure connection"
  else
    match headersGet headers "Origin" with
    | Option.some origin =>
        if ALLOWED_ORIGINS.contains origin then Except.ok ()
        else Except.error "Invalid origin"
    | Option.none => Except.ok ()

/-- One upstream HTTP response: status code, body text, and the value
`response.json()` parses from the body. -/
structure NetResponse where
  status : Nat
  text : String
  json : PyVal

/-- The ValueError message raised by `http_request` on an HTTP failure. -/
def apiFailMessage (status : Nat) (text : String) : String :=
  "API request failed: " ++ toString status ++ " - " ++ text

/-- `http_request` from src/util/api.py.  The network is an oracle mapping
the attempt index and the headers sent on that attempt to the upstream
response; `fresh` is the headers `get_reltio_headers()` would return on the
retry.  `raise_for_status` raises exactly when the status is at least 400.
Returned alongside the outcome is the number of network attempts made.
On a 401 whose body contains "invalid_token", when retrying is still
allowed and the headers carry an Authorization entry, the request is
retried once with the fresh headers and retry_on_401 disabled; every other
failure raises ValueError with the status code and body text. -/
def http_request (net : Nat → Option Headers → NetResponse) (fresh : Headers)
    (attempt : Nat) (headers : Option Headers) (retry_on_401 : Bool) :
    Except String PyVal × Nat :=
  let r := net attempt headers
  if r.status < 400 then
    (Except.ok r.json, 1)
  else if h : r.status = 401 ∧ retry_on_401 = true
      ∧ strContains r.text "invalid_token" = true
      ∧ headersHaveAuth headers = true then
    let inner := http_request net fresh (attempt + 1) (Option.some fresh) false
    (inner.1, inner.2 + 1)
  else
    (Except.error (apiFailMessage r.status r.text), 1)
termination_by (cond retry_on_401 1 0)
decreasing_by simp [h.2.1]

/-! ## Further string and numeric primitives of the embedding -/

/-- Python `min` on ints. -/
def pyMin (a b : Int) : Int := if a ≤ b then a else b

/-- Python `str.strip()` (whitespace at both ends removed). -/
def strTrim (s : String) : String :=
  String.mk
    (((s.toList.dropWhile Char.isWhitespace).reverse.dropWhile
        Char.isWhitespace).reverse)

/-- Python `str.lower()` for the ASCII strings this code handles. -/
def strToLower (s : String) : String :=
  String.mk (s.toList.map Char.toLower)

/-- Python `str.startswith`. -/
def strStartsWith (s pre : String) : Bool :=
  listStartsWith s.toList pre.toList

/-- Split a character list at every occurrence of the single separator
character, keeping empty pieces, as Python `str.split(c)` does. -/
def splitCharAux (sep : Char) : List Char → List Char → List String
  | [], acc => [String.mk acc.reverse]
  | c :: rest, acc =>
      if c == sep then String.mk acc.reverse :: splitCharAux sep rest []
      else splitCharAux sep rest (c :: acc)

/-- Python `str.split(sep)` for a one-character separator. -/
def strSplitChar (s : String) (sep : Char) : List String :=
  splitCharAux sep s.toList []

/-! ## src/util/auth.py -/

/-- The headers `get_reltio_headers()` builds around a freshly fetched
bearer token. -/
def reltioHeaders (token : String) : Headers :=
  [ ("Authorization", "Bearer " ++ token),
    ("Content-Type", "application/json"),
    ("Accept", "application/json"),
    ("Source", "Reltio-Open-MCP-Server") ]

/-! ## Network effects and the network oracle

Each embedded tool function returns, next to its result, the ordered list
of network effects it performs: token fetches (`get_reltio_headers`, one
auth-endpoint POST each) and HTTP calls to the Reltio API.  The oracle
supplies the outcome of each interaction: `auth` the outcome every
`get_reltio_headers()` call yields (an error models a raised exception),
`respond` the outcome of `http_request` for a given call (an error models
the ValueError raised on an HTTP failure, carrying its message). -/

/-- One outbound HTTP call as the tool layer issues it. -/
structure HttpCall where
  url : String
  method : String
  params : List (String × String)
  data : Option PyVal

/-- A network effect performed by a tool invocation. -/
inductive Effect where
  | tokenFetch : Effect
  | http : HttpCall → Effect

/-- The network oracle. -/
structure NetOracle where
  auth : Except String Headers
  respond : HttpCall → Except String PyVal

/-- What a tool function returns: a Python value (dicts, the error
envelope), or the string `yaml.dump(v, sort_keys=False)` of a value `v`
(the YAML serialisation itself is kept symbolic). -/
inductive ToolReturn where
  | val : PyVal → ToolReturn
  | yamlDump : PyVal → ToolReturn

/-- The HTTP calls among a list of effects. -/
def httpCallsOf (effects : List Effect) : List HttpCall :=
  effects.filterMap (fun e => match e with
    | Effect.http c => Option.some c
    | Effect.tokenFetch => Option.none)

/-- The VALIDATION_ERROR check used in the theorems: does a tool return
carry the uniform error envelope with this code_key? -/
def isErrorEnvelope (r : ToolReturn) (key : String) : Bool :=
  match r with
  | ToolReturn.val (PyVal.dict d) =>
      (match pyGet d "error" with
       | Option.some (PyVal.dict e) =>
           (match pyGet e "code_key" with
            | Option.some (PyVal.str k) => k == key
            | _ => false)
       | _ => false)
  | _ => false

/-! ## src/util/models.py : EntitySearchRequest -/

/-- Are the parentheses of a filter string balanced, i.e. does the count of
opening parentheses equal the count of closing ones? -/
def parenBalanced (s : String) : Bool :=
  s.toList.count '(' == s.toList.count ')'

/-- The `validate_filter` field validator of EntitySearchRequest: a
non-empty filter must have balanced parentheses and is then stripped of
the dangerous characters; the empty filter passes unchanged. -/
def validate_filter (v : String) : Except String String :=
  if v ≠ "" then
    if parenBalanced v then Except.ok (sanitizeDangerous v)
    else Except.error "Unbalanced parentheses in filter expression"
  else Except.ok v

/-- The validated projection of an entity-search request. -/
structure ValidatedSearch where
  filter : String
  entity_type : String
  tenant_id : String
  max_results : Int
  sort : String
  order : String
  select : String
  options : String
  activeness : String
  offset : Int

/-- Validation of EntitySearchRequest (src/util/models.py) for the fields
search_entities supplies, in field order: filter is whitespace-stripped,
length-capped at MAX_FILTER_LENGTH = 1000, parenthesis-checked and
sanitised; entity_type is stripped and capped at 50; tenant_id must match
TENANT_ID_PATTERN; max_results must lie in 1..MAX_RESULTS_LIMIT = 100;
order, lowercased, must be asc or desc; offset must be non-negative; and
the model validator finally requires offset + max_results ≤ 10000. -/
def EntitySearchRequest_validate (filter entity_type tenant_id : String)
    (max_results : Int) (sort order select options activeness : String)
    (offset : Int) : Except String ValidatedSearch :=
  if (strTrim filter).length > 1000 then Except.error "filter too long"
  else
    match validate_filter (strTrim filter) with
    | Except.error e => Except.error e
    | Except.ok f1 =>
      if (strTrim entity_type).length > 50 then
        Except.error "entity_type too long"
      else if !(matchesTenantIdPattern tenant_id) then
        Except.error "String should match pattern"
      else if max_results < 1 || max_results > 100 then
        Except.error "max_results out of range"
      else if !(strToLower order == "asc" || strToLower order == "desc") then
        Except.error "Order must be one of asc or desc"
      else if offset < 0 then Except.error "offset must be non-negative"
      else if offset + max_results > 10000 then
        Except.error "The sum of offset and max_results must not exceed 10000"
      else Except.ok
        { filter := f1, entity_type := strTrim entity_type,
          tenant_id := tenant_id, max_results := max_results, sort := sort,
          order := strToLower order, select := select, options := options,
          activeness := activeness, offset := offset }

/-! ## src/tools/search.py : search_entities -/

/-- Python dict assignment `d[k] = v`: replace the value in place when the
key exists, append otherwise. -/
def dictSet (d : List (String × PyVal)) (k : String) (v : PyVal) :
    List (String × PyVal) :=
  if d.any (fun p => p.1 == k) then
    d.map (fun p => if p.1 == k then (k, v) else p)
  else d ++ [(k, v)]

/-- The entity_dict loop body of search_entities: for each selected field,
an attributes field is simplified, any other field copied verbatim; a
missing key (KeyError) or a non-dict attributes value (which would make
simplify_reltio_attributes raise) is an exception, caught by the
function's outermost handler. -/
def buildEntityDict (e : List (String × PyVal))
    (acc : List (String × PyVal)) :
    List String → Except Unit (List (String × PyVal))
  | [] => Except.ok acc
  | f :: rest =>
      if strStartsWith f "attributes" then
        match pyGet e "attributes" with
        | Option.some (PyVal.dict attrs) =>
            buildEntityDict e
              (dictSet acc "attributes"
                (PyVal.dict (simplify_reltio_attributes attrs))) rest
        | _ => Except.error ()
      else
        match pyGet e f with
        | Option.some v => buildEntityDict e (dictSet acc f v) rest
        | Option.none => Except.error ()

/-- Reshaping of one returned entity: an empty entity_dict yields the bare
uri, otherwise the single-key dict mapping the uri to the entity_dict.
The uri is required to be present and a string (it always is in Reltio
search responses; dict keys are modelled as strings). -/
def reshapeEntity (select_fields : List String) (entity : PyVal) :
    Except Unit PyVal :=
  match entity with
  | PyVal.dict e =>
      (match buildEntityDict e [] select_fields with
       | Except.error _ => Except.error ()
       | Except.ok ed =>
           (match pyGet e "uri" with
            | Option.some (PyVal.str u) =>
                Except.ok (if ed.isEmpty then PyVal.str u
                           else PyVal.dict [(u, PyVal.dict ed)])
            | _ => Except.error ()))
  | _ => Except.error ()

/-- Reshaping of the whole result list, first failure aborting (the
exception escapes to the outermost handler). -/
def reshapeResults (select_fields : List String) :
    List PyVal → Except Unit (List PyVal)
  | [] => Except.ok []
  | e :: rest =>
      match reshapeEntity select_fields e with
      | Except.error _ => Except.error ()
      | Except.ok v =>
          (match reshapeResults select_fields rest with
           | Except.error _ => Except.error ()
           | Except.ok vs => Except.ok (v :: vs))

/-- The JSON payload search_entities posts to the search endpoint. -/
def searchPayload (req : ValidatedSearch) : PyVal :=
  PyVal.dict
    ([ ("filter", PyVal.str req.filter),
       ("select", PyVal.str req.select),
       ("max", PyVal.int (pyMin req.max_results 10)),
       ("offset", PyVal.int req.offset),
       ("scoreEnabled", PyVal.bool false),
       ("options", PyVal.str req.options),
       ("activeness", PyVal.str req.activeness) ]
     ++ (if req.sort ≠ "" then
          [("sort", PyVal.str req.sort), ("order", PyVal.str req.order)]
        else []))

/-- The search POST as an HttpCall. -/
def searchHttpCall (environment : String) (req : ValidatedSearch) : HttpCall :=
  ⟨get_reltio_url environment "entities/_search" "api" req.tenant_id,
   "POST", [], Option.some (searchPayload req)⟩

/-- `search_entities` from src/tools/search.py.  Control flow: validate
(failure: VALIDATION_ERROR, no network); fetch headers and run the
security gate (failure: AUTHENTICATION_ERROR, one token fetch); POST the
search payload (failure: SERVER_ERROR); then the activity-logging step,
whose description f-string references the name entity_id_label_pairs that
is bound nowhere in the module, so evaluating it raises NameError before
any audit request is built — the surrounding except block swallows the
failure, hence no audit network effect ever occurs; finally reshape the
result per entity (an exception here reaches the outermost handler and
yields the generic SERVER_ERROR envelope) and return its YAML dump.  The
model is built with max_results already clamped by min(max_results, 10)
and the payload applies min(·, 10) once more. -/
def search_entities (environment : String) (oracle : NetOracle)
    (filter entity_type tenant_id : String) (max_results : Int)
    (sort order select options activeness : String) (offset : Int) :
    List Effect × ToolReturn :=
  match EntitySearchRequest_validate filter entity_type tenant_id
      (pyMin max_results 10) sort order select options activeness offset with
  | Except.error e =>
      ([], ToolReturn.val (create_error_response "VALIDATION_ERROR"
        ("Invalid input parameters: " ++ e) []))
  | Except.ok req =>
    let url := get_reltio_url environment "entities/_search" "api"
      req.tenant_id
    match oracle.auth with
    | Except.error _ =>
        ([Effect.tokenFetch], ToolReturn.val (create_error_response
          "AUTHENTICATION_ERROR" "Failed to authenticate with Reltio API" []))
    | Except.ok headers =>
      match validate_connection_security url headers with
      | Except.error _ =>
          ([Effect.tokenFetch], ToolReturn.val (create_error_response
            "AUTHENTICATION_ERROR" "Failed to authenticate with Reltio API"
            []))
      | Except.ok _ =>
        let call : HttpCall := searchHttpCall environment req
        let eff := [Effect.tokenFetch, Effect.http call]
        match oracle.respond call with
        | Except.error _ =>
            (eff, ToolReturn.val (create_error_response "SERVER_ERROR"
              "Failed to retrieve search results from Reltio API" []))
        | Except.ok result =>
          match result with
          | PyVal.list entities =>
              (match reshapeResults
                  ((strSplitChar select ',').filter (fun f => f ≠ "uri"))
                  entities with
               | Except.ok filtered =>
                   (eff, ToolReturn.yamlDump (PyVal.list filtered))
               | Except.error _ =>
                   (eff, ToolReturn.val (create_error_response "SERVER_ERROR"
                     "An unexpected error occurred while processing your request"
                     [])))
          | _ =>
              (eff, ToolReturn.val (create_error_response "SERVER_ERROR"
                "An unexpected error occurred while processing your request"
                []))

/-- The entity-type filter clause `equals(type,'configuration/entityTypes/
<type>')` the server layer builds (quotes written via sQuote). -/
def entityTypeClause (entity_type : String) : String :=
  "equals(type," ++ sQuote ++ "configuration/entityTypes/" ++ entity_type
    ++ sQuote ++ ")"

/-- The filter combination of search_entities_tool (src/server.py):
AND-combine the caller filter with the entity-type clause when both are
non-empty, use the bare clause when only the entity type is given, pass
the caller filter through otherwise. -/
def combinedSearchFilter (filter entity_type : String) : String :=
  if filter ≠ "" && entity_type ≠ "" then
    filter ++ " and " ++ entityTypeClause entity_type
  else if entity_type ≠ "" then entityTypeClause entity_type
  else filter

/-- The select normalisation of search_entities_tool: an empty or blank
select defaults to "uri,label", and "uri," is prepended whenever the
string does not contain "uri" as a substring. -/
def normalizedSearchSelect (select : String) : String :=
  let select1 := if select = "" || strTrim select = "" then "uri,label"
                 else select
  if !(strContains select1 "uri") then "uri," ++ select1 else select1

/-- `search_entities_tool` from src/server.py: combine the filter,
normalise the select list, clamp max_results to at most 10, then delegate
to search_entities. -/
def search_entities_tool (environment : String) (oracle : NetOracle)
    (filter entity_type tenant_id : String) (max_results : Int)
    (sort order select options activeness : String) (offset : Int) :
    List Effect × ToolReturn :=
  search_entities environment oracle
    (combinedSearchFilter filter entity_type) entity_type tenant_id
    (pyMin max_results 10) sort order (normalizedSearchSelect select)
    options activeness offset

/-- The filter string a call carries in its JSON payload, when any. -/
def callFilter (c : HttpCall) : Option String :=
  match c.data with
  | Option.some (PyVal.dict d) =>
      (match pyGet d "filter" with
       | Option.some (PyVal.str s) => Option.some s
       | _ => Option.none)
  | _ => Option.none

/-- The select string a call carries in its JSON payload, when any. -/
def callSelect (c : HttpCall) : Option String :=
  match c.data with
  | Option.some (PyVal.dict d) =>
      (match pyGet d "select" with
       | Option.some (PyVal.str s) => Option.some s
       | _ => Option.none)
  | _ => Option.none

/-- The max field a call carries in its JSON payload, when any. -/
def callMax (c : HttpCall) : Option Int :=
  match c.data with
  | Option.some (PyVal.dict d) =>
      (match pyGet d "max" with
       | Option.some (PyVal.int n) => Option.some n
       | _ => Option.none)
  | _ => Option.none

/-- An oracle whose token fetch succeeds and whose every HTTP call returns
the empty result list. -/
def okOracle : NetOracle :=
  ⟨Except.ok (reltioHeaders "token"), fun _ => Except.ok (PyVal.list [])⟩

/-! ## src/util/activity_log.py : the audit emitter

`ActivityLog.execute_and_log_activity` builds the body
`{label: OPEN_MCP_SERVER, description}` and posts it to the activities
endpoint after fetching fresh headers; every tool wraps the call in a
try/except that logs and swallows any failure, so only the network
effects matter to the caller.  The generated ActivityID header is a
random correlation id and is omitted here (it influences none of the
embedded checks). -/
def activityLogEffects (oracle : NetOracle)
    (environment tenant description : String) : List Effect :=
  match oracle.auth with
  | Except.error _ => [Effect.tokenFetch]
  | Except.ok h =>
      let url := get_reltio_url environment "activities" "api" tenant
      match validate_connection_security url h with
      | Except.error _ => [Effect.tokenFetch]
      | Except.ok _ =>
          [Effect.tokenFetch, Effect.http ⟨url, "POST", [],
            Option.some (PyVal.dict
              [ ("label", PyVal.str "OPEN_MCP_SERVER"),
                ("description", PyVal.str description) ])⟩]

/-! ## src/util/models.py : the remaining request models -/

/-- EntityIdRequest: the pattern is checked on the raw entity_id during
core validation, the URI prefix stripped only afterwards by the mode-after
field validator; tenant_id is pattern-checked. -/
def EntityIdRequest_validate (entity_id tenant_id : String) :
    Except String (String × String) :=
  match entityIdField entity_id with
  | Except.error e => Except.error e
  | Except.ok eid =>
      (match tenantIdField tenant_id with
       | Except.error e => Except.error e
       | Except.ok ten => Except.ok (eid, ten))

/-- RejectMatchRequest: source_id and target_id validated like entity ids,
tenant_id pattern-checked. -/
def RejectMatchRequest_validate (source_id target_id tenant_id : String) :
    Except String (String × String × String) :=
  match entityIdField source_id with
  | Except.error e => Except.error e
  | Except.ok sid =>
      (match entityIdField target_id with
       | Except.error e => Except.error e
       | Except.ok tid =>
           (match tenantIdField tenant_id with
            | Except.error e => Except.error e
            | Except.ok ten => Except.ok (sid, tid, ten)))

/-- The per-id normalisation of MergeEntitiesRequest.validate_entity_ids:
an id already starting with "entities/" is kept, anything else becomes
"entities/" followed by its extracted trailing segment. -/
def formatMergeId (entity_id : String) : String :=
  if strStartsWith entity_id "entities/" then entity_id
  else "entities/" ++ extract_entity_id entity_id

/-- MergeEntitiesRequest: exactly two ids (the min_items/max_items bounds
and the explicit length check agree), each normalised to the entities/
form; tenant_id pattern-checked.  No character pattern is applied to the
ids themselves. -/
def MergeEntitiesRequest_validate (entity_ids : List String)
    (tenant_id : String) : Except String (List String × String) :=
  if entity_ids.length ≠ 2 then
    Except.error "Exactly two entity IDs must be provided"
  else
    match tenantIdField tenant_id with
    | Except.error e => Except.error e
    | Except.ok ten => Except.ok (entity_ids.map formatMergeId, ten)

/-- The validated projection of a match-score request. -/
structure ValidatedMatchScore where
  start_match_score : Int
  end_match_score : Int
  entity_type : String
  tenant_id : String
  max_results : Int
  offset : Int

/-- MatchScoreRequest: scores in 0..100 with start ≤ end (model
validator), entity_type stripped/capped/defaulted to Individual when
empty, tenant pattern, max_results in 1..10, offset non-negative, and
offset + max_results ≤ 10000. -/
def MatchScoreRequest_validate (start_match_score end_match_score : Int)
    (entity_type tenant_id : String) (max_results offset : Int) :
    Except String ValidatedMatchScore :=
  if start_match_score < 0 || start_match_score > 100 then
    Except.error "start_match_score out of range"
  else if end_match_score < 0 || end_match_score > 100 then
    Except.error "end_match_score out of range"
  else
    if (strTrim entity_type).length > 50 then
      Except.error "entity_type too long"
    else if !(matchesTenantIdPattern tenant_id) then
      Except.error "String should match pattern"
    else if max_results < 1 || max_results > 10 then
      Except.error "max_results out of range"
    else if offset < 0 then Except.error "offset must be non-negative"
    else if offset + max_results > 10000 then
      Except.error "The sum of offset and max_results must not exceed 10000"
    else if start_match_score > end_match_score then
      Except.error
        "start_match_score must be less than or equal to end_match_score"
    else Except.ok
      { start_match_score := start_match_score,
        end_match_score := end_match_score,
        entity_type := if strTrim entity_type = "" then "Individual"
                       else strTrim entity_type,
        tenant_id := tenant_id, max_results := max_results,
        offset := offset }

/-- The validated projection of a merge-activities request. -/
structure ValidatedMergeActivities where
  timestamp_gt : Int
  event_types : Option (List String)
  timestamp_lt : Option Int
  entity_type : Option String
  user : Option String
  tenant_id : String
  offset : Int
  max_results : Int

/-- MergeActivitiesRequest: timestamp_gt positive, timestamp_lt positive
and greater than timestamp_gt when supplied, entity_type stripped and
capped when supplied, tenant pattern, offset non-negative, max_results in
1..MAX_RESULTS_LIMIT = 100.  This model carries no constraint tying
offset + max_results to 10000. -/
def MergeActivitiesRequest_validate (timestamp_gt : Int)
    (event_types : Option (List String)) (timestamp_lt : Option Int)
    (entity_type : Option String) (user : Option String)
    (tenant_id : String) (offset max_results : Int) :
    Except String ValidatedMergeActivities :=
  if timestamp_gt ≤ 0 then
    Except.error "timestamp_gt must be a positive integer"
  else if (match timestamp_lt with
           | Option.some lt => decide (lt ≤ 0)
           | Option.none => false) then
    Except.error "timestamp_lt must be a positive integer"
  else
    let t0 := entity_type.map strTrim
    if (match t0 with
        | Option.some t => decide (t.length > 50)
        | Option.none => false) then
      Except.error "entity_type too long"
    else if !(matchesTenantIdPattern tenant_id) then
      Except.error "String should match pattern"
    else if offset < 0 then Except.error "offset must be non-negative"
    else if max_results < 1 || max_results > 100 then
      Except.error "max_results out of range"
    else if (match timestamp_lt with
             | Option.some lt => decide (lt ≤ timestamp_gt)
             | Option.none => false) then
      Except.error "timestamp_lt must be greater than timestamp_gt"
    else Except.ok
      { timestamp_gt := timestamp_gt, event_types := event_types,
        timestamp_lt := timestamp_lt, entity_type := t0, user := user,
        tenant_id := tenant_id, offset := offset,
        max_results := max_results }

/-! ## src/tools/activity.py : get_merge_activities -/

/-- Python `sep.join(parts)`. -/
def joinSep (sep : String) : List String → String
  | [] => ""
  | [x] => x
  | x :: y :: rest => x ++ sep ++ joinSep sep (y :: rest)

/-- An uppercase hexadecimal digit. -/
def hexDigit (n : Nat) : Char :=
  if n < 10 then Char.ofNat (48 + n) else Char.ofNat (55 + n)

/-- `urllib.parse.quote` restricted to the ASCII strings this code builds:
unreserved characters and the default-safe slash pass through, anything
else becomes a percent-escaped byte. -/
def urlQuoteChar (c : Char) : List Char :=
  if c.isAlphanum || c == '_' || c == '.' || c == '~' || c == '-'
      || c == '/' then [c]
  else ['%', hexDigit (c.toNat / 16), hexDigit (c.toNat % 16)]

/-- `urllib.parse.quote` over a whole string. -/
def urlQuote (s : String) : String :=
  String.mk (s.toList.flatMap urlQuoteChar)

/-- The merge-event filter string built by get_merge_activities: a
mandatory gt(timestamp) bound, an optional lt(timestamp) bound, an
OR-group of event-type equality clauses (parenthesised only when there
are at least two), optional entity-type and user clauses, all joined with
" AND ". -/
def mergeActivitiesFilter (req : ValidatedMergeActivities) : String :=
  let eventTypes := match req.event_types with
    | Option.none =>
        ["ENTITIES_MERGED_MANUALLY", "ENTITIES_MERGED",
         "ENTITIES_MERGED_ON_THE_FLY"]
    | Option.some l => l
  let eventFilters := eventTypes.map (fun t =>
    "equals(items.data.type," ++ sQuote ++ t ++ sQuote ++ ")")
  let parts0 := ["gt(timestamp," ++ toString req.timestamp_gt ++ ")"]
  let parts1 := parts0 ++ (match req.timestamp_lt with
    | Option.some lt => ["lt(timestamp," ++ toString lt ++ ")"]
    | Option.none => [])
  let parts2 := parts1 ++ (match eventFilters with
    | [] => []
    | [f] => [f]
    | fs => ["(" ++ joinSep " OR " fs ++ ")"])
  let parts3 := parts2 ++ (match req.entity_type with
    | Option.some t => ["equals(items.objectType," ++ sQuote
        ++ "configuration/entityTypes/" ++ t ++ sQuote ++ ")"]
    | Option.none => [])
  let parts4 := parts3 ++ (match req.user with
    | Option.some u => ["equals(user," ++ sQuote ++ u ++ sQuote ++ ")"]
    | Option.none => [])
  joinSep " AND " parts4

/-- The activity-uri list the audit description interpolates:
`[activity.get("uri", "") for activity in response]` followed by a string
join.  A non-dict item or a non-string uri makes this raise inside the
audit try-block, which is swallowed, so no audit request happens then. -/
def mergeAuditIdsList : List PyVal → Except Unit (List String)
  | [] => Except.ok []
  | PyVal.dict d :: rest =>
      (match mergeAuditIdsList rest with
       | Except.error _ => Except.error ()
       | Except.ok ids =>
           (match pyGet d "uri" with
            | Option.some (PyVal.str u) => Except.ok (u :: ids)
            | Option.none => Except.ok ("" :: ids)
            | Option.some _ => Except.error ()))
  | _ :: _ => Except.error ()

/-- The audit-id computation over the whole response value: anything but
a list raises inside the audit try-block. -/
def mergeAuditIds : PyVal → Except Unit (List String)
  | PyVal.list items => mergeAuditIdsList items
  | _ => Except.error ()

/-- `get_merge_activities` from src/tools/activity.py.  Validation failure
returns the VALIDATION_ERROR envelope with no network effect; afterwards
a local max_results clamp is computed (and, notably, never used — the URL
takes request.max_results), headers are fetched, the filter string is
built and URL-encoded into the query string, the security gate runs, the
GET is issued, and the response is returned as YAML after the audit
attempt. -/
def get_merge_activities (environment : String) (oracle : NetOracle)
    (timestamp_gt : Int) (event_types : Option (List String))
    (timestamp_lt : Option Int) (entity_type : Option String)
    (user : Option String) (tenant_id : String)
    (offset max_results : Int) : List Effect × ToolReturn :=
  match MergeActivitiesRequest_validate timestamp_gt event_types
      timestamp_lt entity_type user tenant_id offset max_results with
  | Except.error e =>
      ([], ToolReturn.val (create_error_response "VALIDATION_ERROR"
        ("Invalid request parameters: " ++ e) []))
  | Except.ok req =>
    match oracle.auth with
    | Except.error _ =>
        ([Effect.tokenFetch], ToolReturn.val (create_error_response
          "AUTHENTICATION_ERROR" "Failed to authenticate with Reltio API" []))
    | Except.ok h =>
      let url := get_reltio_url environment
        ("activities?filter=" ++ urlQuote (mergeActivitiesFilter req)
          ++ "&offset=" ++ toString req.offset
          ++ "&max=" ++ toString req.max_results) "api" req.tenant_id
      match validate_connection_security url h with
      | Except.error _ =>
          ([Effect.tokenFetch], ToolReturn.val (create_error_response
            "AUTHORIZATION_ERROR" "Security requirements not met" []))
      | Except.ok _ =>
        let call : HttpCall := ⟨url, "GET", [], Option.none⟩
        match oracle.respond call with
        | Except.error e =>
            ([Effect.tokenFetch, Effect.http call],
             if strContains e "404" then
               ToolReturn.val (create_error_response "RESOURCE_NOT_FOUND"
                 "Activities resource not found" [])
             else
               ToolReturn.val (create_error_response "SERVER_ERROR"
                 "Failed to retrieve activity events from Reltio API" []))
        | Except.ok response =>
            let audit := match mergeAuditIds response with
              | Except.error _ => []
              | Except.ok ids => activityLogEffects oracle environment
                  tenant_id
                  ("get_merge_activities_tool : MCP server successfully fetched merge activities, merge activities IDs: "
                    ++ joinSep ", " ids)
            ([Effect.tokenFetch, Effect.http call] ++ audit,
             ToolReturn.yamlDump response)

/-! ## src/tools/match.py : find_matches_by_match_score -/

/-- The filter expression built at src/tools/match.py line 73 (the exact
Postman string, as the comment there says): an opening parenthesis, a
range clause over potentialMatches.matchScore, " and ", and an
entity-type equality clause.  Nothing closes the leading parenthesis. -/
def matchScoreFilterExpression (start_match_score end_match_score : Int)
    (entity_type : String) : String :=
  "(range(potentialMatches.matchScore," ++ toString start_match_score
    ++ "," ++ toString end_match_score ++ ") and equals(type," ++ sQuote
    ++ "configuration/entityTypes/" ++ entity_type ++ sQuote ++ ")"

/-- The per-match projection in find_matches_by_match_score: each result
item must be a dict carrying uri, label and type (a missing key raises
KeyError, caught by the outermost handler). -/
def matchScoreSummary : List PyVal → Except Unit (List PyVal)
  | [] => Except.ok []
  | PyVal.dict d :: rest =>
      (match pyGet d "uri", pyGet d "label", pyGet d "type" with
       | Option.some u, Option.some l, Option.some t =>
           (match matchScoreSummary rest with
            | Except.ok vs => Except.ok (PyVal.dict
                [("uri", u), ("label", l), ("type", t)] :: vs)
            | Except.error _ => Except.error ())
       | _, _, _ => Except.error ())
  | _ :: _ => Except.error ()

/-- `find_matches_by_match_score` from src/tools/match.py: validate (with
max_results pre-clamped by min(·, 10) at the call), fetch headers, run
the security gate, POST the payload whose filter is the unbalanced
expression above, and reshape the result (or report no matches). -/
def find_matches_by_match_score (environment : String) (oracle : NetOracle)
    (start_match_score end_match_score : Int) (entity_type tenant_id : String)
    (max_results offset : Int) : List Effect × ToolReturn :=
  match MatchScoreRequest_validate start_match_score end_match_score
      entity_type tenant_id (pyMin max_results 10) offset with
  | Except.error e =>
      ([], ToolReturn.val (create_error_response "VALIDATION_ERROR"
        ("Invalid input parameters: " ++ e) []))
  | Except.ok req =>
    match oracle.auth with
    | Except.error _ =>
        ([Effect.tokenFetch], ToolReturn.val (create_error_response
          "AUTHENTICATION_ERROR" "Failed to authenticate with Reltio API" []))
    | Except.ok h =>
      let url := get_reltio_url environment "entities/_search" "api"
        req.tenant_id
      match validate_connection_security url h with
      | Except.error _ =>
          ([Effect.tokenFetch], ToolReturn.val (create_error_response
            "SECURITY_ERROR" "Security requirements not met" []))
      | Except.ok _ =>
        let filter_expression := matchScoreFilterExpression
          req.start_match_score req.end_match_score req.entity_type
        let payload := PyVal.dict
          [ ("filter", PyVal.str filter_expression),
            ("select", PyVal.str "uri,label,type,relevanceScores"),
            ("max", PyVal.int (pyMin req.max_results 10)),
            ("offset", PyVal.int req.offset),
            ("scoreEnabled", PyVal.bool false),
            ("options", PyVal.str "ovOnly"),
            ("activeness", PyVal.str "active") ]
        let call : HttpCall := ⟨url, "POST", [], Option.some payload⟩
        match oracle.respond call with
        | Except.error e =>
            ([Effect.tokenFetch, Effect.http call],
             ToolReturn.val (create_error_response "SERVER_ERROR"
               ("Failed to retrieve matches: " ++ e) []))
        | Except.ok result =>
          let audit := activityLogEffects oracle environment tenant_id
            ("find_matches_by_match_score_tool : Successfully fetched potential matches for entity type "
              ++ req.entity_type ++ " with match score between "
              ++ toString req.start_match_score ++ " and "
              ++ toString req.end_match_score)
          let eff := [Effect.tokenFetch, Effect.http call] ++ audit
          match result with
          | PyVal.list (m :: ms) =>
              (match matchScoreSummary (m :: ms) with
               | Except.ok vs => (eff, ToolReturn.yamlDump (PyVal.list vs))
               | Except.error _ =>
                   (eff, ToolReturn.val (create_error_response "SERVER_ERROR"
                     "An unexpected error occurred while searching for matches"
                     [])))
          | other =>
              if pyFalsy other then
                (eff, ToolReturn.val (PyVal.dict
                  [ ("message", PyVal.str
                      ("No potential matches found for entity type "
                        ++ req.entity_type ++ " with match score between "
                        ++ toString req.start_match_score ++ " and "
                        ++ toString req.end_match_score ++ ".")),
                    ("results", PyVal.list []) ]))
              else
                (eff, ToolReturn.val (create_error_response "SERVER_ERROR"
                  "An unexpected error occurred while searching for matches"
                  []))

/-! ## src/tools/entity.py : get_entity_matches, reject_entity_match,
merge_entities -/

/-- `format_entity_matches` from src/tools/util.py: a dict comprehension
keyed by each match object uri, projecting matchRules, createdTime and
matchScore (required — a missing key raises), plus relevance and label
defaulted to None.  The input must be a list of dicts whose object entry
is a dict with a string uri.  The accumulator realises the dict
comprehension left to right (a duplicate uri overwrites in place). -/
def format_entity_matches_aux (acc : List (String × PyVal)) :
    List PyVal → Except Unit (List (String × PyVal))
  | [] => Except.ok acc
  | PyVal.dict d :: rest =>
      (match pyGet d "object" with
       | Option.some (PyVal.dict o) =>
           (match pyGet o "uri" with
            | Option.some (PyVal.str u) =>
                (match pyGet d "matchRules", pyGet d "createdTime",
                    pyGet d "matchScore" with
                 | Option.some mr, Option.some ct, Option.some ms =>
                     format_entity_matches_aux
                       (dictSet acc u (PyVal.dict
                         [ ("matchRules", mr), ("createdTime", ct),
                           ("matchScore", ms),
                           ("relevance",
                            (pyGet d "relevance").getD PyVal.none),
                           ("label",
                            (pyGet d "label").getD PyVal.none) ])) rest
                 | _, _, _ => Except.error ())
            | _ => Except.error ())
       | _ => Except.error ())
  | _ :: _ => Except.error ()

/-- `format_entity_matches` over a whole match list. -/
def format_entity_matches (items : List PyVal) :
    Except Unit (List (String × PyVal)) :=
  format_entity_matches_aux [] items

/-- Does a JSON value support Python `len()` (list, dict or string)? -/
def pyHasLen : PyVal → Bool
  | PyVal.list _ => true
  | PyVal.dict _ => true
  | PyVal.str _ => true
  | _ => false

/-- The label text interpolated into the audit description of
get_entity_matches: `source_entity.get("label", "")` when the source
entity is a dict, the empty string otherwise.  (A non-string label value
would be rendered by str(); only its use in the logged description
differs, which nothing here depends on.) -/
def sourceEntityLabel (source_entity : PyVal) : String :=
  match source_entity with
  | PyVal.dict d =>
      (match pyGet d "label" with
       | Option.some (PyVal.str s) => s
       | _ => "")
  | _ => ""

/-- The max_results clamp at the top of get_entity_matches: below 1
becomes 1, above MAX_RESULTS_LIMIT = 100 becomes 100. -/
def clampMatchesLimit (m : Int) : Int :=
  if m < 1 then 1 else if m > 100 then 100 else m

/-- The transitive-matches GET issued by get_entity_matches, with its
fixed parameters. -/
def transitiveMatchesCall (environment eid ten : String) (mr : Int) :
    HttpCall :=
  ⟨get_reltio_url environment ("entities/" ++ eid ++ "/_transitiveMatches")
      "api" ten,
   "GET",
   [ ("deep", "1"), ("markMatchedValues", "true"), ("sort", "score"),
     ("order", "desc"), ("activeness", "active"), ("limit", toString mr) ],
   Option.none⟩

/-- The source-entity enrichment GET issued by get_entity_matches. -/
def sourceEntityCall (environment eid ten : String) : HttpCall :=
  ⟨get_reltio_url environment ("entities/" ++ eid) "api" ten, "GET", [],
   Option.none⟩

/-- `get_entity_matches` from src/tools/entity.py: validate the entity id
(VALIDATION_ERROR on failure, no network), clamp max_results into 1..100,
fetch headers, GET the transitive-matches endpoint with fixed parameters;
an empty or falsy match result short-circuits to the no-matches message
without touching the source-entity endpoint; otherwise the source entity
is fetched, and if that fetch fails the matches are still returned with a
degraded message.  On full success the combined result is dumped to YAML
after the audit attempt. -/
def get_entity_matches (environment : String) (oracle : NetOracle)
    (entity_id tenant_id : String) (max_results : Int) :
    List Effect × ToolReturn :=
  match EntityIdRequest_validate entity_id tenant_id with
  | Except.error e =>
      ([], ToolReturn.val (create_error_response "VALIDATION_ERROR"
        ("Invalid entity ID format: " ++ e) []))
  | Except.ok (eid, ten) =>
    let mr : Int := clampMatchesLimit max_results
    match oracle.auth with
    | Except.error _ =>
        ([Effect.tokenFetch], ToolReturn.val (create_error_response
          "AUTHENTICATION_ERROR" "Failed to authenticate with Reltio API" []))
    | Except.ok h =>
      let url := get_reltio_url environment
        ("entities/" ++ eid ++ "/_transitiveMatches") "api" ten
      match validate_connection_security url h with
      | Except.error _ =>
          ([Effect.tokenFetch], ToolReturn.val (create_error_response
            "SECURITY_ERROR" "Security requirements not met" []))
      | Except.ok _ =>
        let mcall : HttpCall := transitiveMatchesCall environment eid ten mr
        match oracle.respond mcall with
        | Except.error e =>
            ([Effect.tokenFetch, Effect.http mcall],
             if strContains e "404" then
               ToolReturn.val (create_error_response "RESOURCE_NOT_FOUND"
                 ("Entity with ID " ++ eid ++ " not found") [])
             else
               ToolReturn.val (create_error_response "SERVER_ERROR"
                 "Failed to retrieve matches from Reltio API" []))
        | Except.ok matches_result =>
          if pyFalsy matches_result then
            ([Effect.tokenFetch, Effect.http mcall],
             ToolReturn.val (PyVal.dict
               [ ("message", PyVal.str ("No potential matches found for entity "
                   ++ eid ++ ".")),
                 ("matches", PyVal.list []) ]))
          else if !(pyHasLen matches_result) then
            -- len() on a truthy non-sized value raises TypeError, which the
            -- outermost handler converts to the generic envelope
            ([Effect.tokenFetch, Effect.http mcall],
             ToolReturn.val (create_error_response "SERVER_ERROR"
               "An unexpected error occurred while retrieving entity matches"
               []))
          else
            let scall : HttpCall := sourceEntityCall environment eid ten
            match oracle.respond scall with
            | Except.error e =>
                ([Effect.tokenFetch, Effect.http mcall, Effect.http scall],
                 ToolReturn.val (PyVal.dict
                   [ ("message", PyVal.str
                       ("Found matches but could not retrieve source entity details: "
                         ++ e)),
                     ("matches", matches_result) ]))
            | Except.ok source_entity =>
              match matches_result with
              | PyVal.list items =>
                  (match format_entity_matches items with
                   | Except.error _ =>
                       ([Effect.tokenFetch, Effect.http mcall,
                         Effect.http scall],
                        ToolReturn.val (create_error_response "SERVER_ERROR"
                          "An unexpected error occurred while retrieving entity matches"
                          []))
                   | Except.ok formatted =>
                       let audit := activityLogEffects oracle environment
                         tenant_id
                         ("get_entity_matches_tool : Successfully fetched potential matches for entity: "
                           ++ entity_id ++ ", label: "
                           ++ sourceEntityLabel source_entity)
                       ([Effect.tokenFetch, Effect.http mcall,
                         Effect.http scall] ++ audit,
                        ToolReturn.yamlDump (PyVal.dict
                          [ ("source_entity", PyVal.str eid),
                            ("matches", PyVal.dict formatted) ])))
              | _ =>
                  ([Effect.tokenFetch, Effect.http mcall, Effect.http scall],
                   ToolReturn.val (create_error_response "SERVER_ERROR"
                     "An unexpected error occurred while retrieving entity matches"
                     []))

/-- The _notMatch POST issued by reject_entity_match: the target id rides
in the uri query parameter, the body is empty. -/
def rejectMatchCall (environment sid tid ten : String) : HttpCall :=
  ⟨get_reltio_url environment ("entities/" ++ sid ++ "/_notMatch") "api" ten,
   "POST", [("uri", "entities/" ++ tid)], Option.none⟩

/-- `reject_entity_match` from src/tools/entity.py: validate both ids and
the tenant (VALIDATION_ERROR on failure, no network), POST to the
_notMatch endpoint with the target passed as the uri query parameter and
no body; a falsy response body after the audit attempt yields the
synthetic success dict carrying the validated ids, a truthy body is
returned as-is. -/
def reject_entity_match (environment : String) (oracle : NetOracle)
    (source_id target_id tenant_id : String) : List Effect × ToolReturn :=
  match RejectMatchRequest_validate source_id target_id tenant_id with
  | Except.error e =>
      ([], ToolReturn.val (create_error_response "VALIDATION_ERROR"
        ("Invalid entity ID format: " ++ e) []))
  | Except.ok (sid, tid, ten) =>
    let base_url := get_reltio_url environment
      ("entities/" ++ sid ++ "/_notMatch") "api" ten
    match oracle.auth with
    | Except.error _ =>
        ([Effect.tokenFetch], ToolReturn.val (create_error_response
          "AUTHENTICATION_ERROR" "Failed to authenticate with Reltio API" []))
    | Except.ok h =>
      match validate_connection_security base_url h with
      | Except.error _ =>
          ([Effect.tokenFetch], ToolReturn.val (create_error_response
            "AUTHENTICATION_ERROR" "Failed to authenticate with Reltio API"
            []))
      | Except.ok _ =>
        let call : HttpCall := rejectMatchCall environment sid tid ten
        match oracle.respond call with
        | Except.error e =>
            ([Effect.tokenFetch, Effect.http call],
             if strContains e "404" then
               ToolReturn.val (create_error_response "RESOURCE_NOT_FOUND"
                 "One or more entities not found" [])
             else if strContains e "400" then
               ToolReturn.val (create_error_response "INVALID_REQUEST"
                 ("Invalid reject match request: " ++ e) [])
             else
               ToolReturn.val (create_error_response "SERVER_ERROR"
                 "Failed to reject entity match" []))
        | Except.ok reject_result =>
          let audit := activityLogEffects oracle environment tenant_id
            ("reject_entity_match_tool : Successfully rejected match between entities "
              ++ sid ++ " and " ++ tid)
          if pyFalsy reject_result then
            ([Effect.tokenFetch, Effect.http call] ++ audit,
             ToolReturn.val (PyVal.dict
               [ ("success", PyVal.bool true),
                 ("message", PyVal.str
                   ("Successfully rejected match between entities " ++ sid
                     ++ " and " ++ tid)) ]))
          else
            ([Effect.tokenFetch, Effect.http call] ++ audit,
             ToolReturn.val reject_result)

/-- The _same POST issued by merge_entities; the body is the normalised
id list itself. -/
def mergeSameCall (environment : String) (ids : List String) (ten : String) :
    HttpCall :=
  ⟨get_reltio_url environment "entities/_same" "api" ten, "POST", [],
   Option.some (PyVal.list (ids.map PyVal.str))⟩

/-- `merge_entities` from src/tools/entity.py: validate the id list
(exactly two, each normalised to the entities/ form) and the tenant
(VALIDATION_ERROR on failure, no network), then POST the normalised list
as the JSON body to the _same endpoint and return the response after the
audit attempt. -/
def merge_entities (environment : String) (oracle : NetOracle)
    (entity_ids : List String) (tenant_id : String) :
    List Effect × ToolReturn :=
  match MergeEntitiesRequest_validate entity_ids tenant_id with
  | Except.error e =>
      ([], ToolReturn.val (create_error_response "VALIDATION_ERROR"
        ("Invalid entity IDs: " ++ e) []))
  | Except.ok (ids, ten) =>
    let url := get_reltio_url environment "entities/_same" "api" ten
    match oracle.auth with
    | Except.error _ =>
        ([Effect.tokenFetch], ToolReturn.val (create_error_response
          "AUTHENTICATION_ERROR" "Failed to authenticate with Reltio API" []))
    | Except.ok h =>
      match validate_connection_security url h with
      | Except.error _ =>
          ([Effect.tokenFetch], ToolReturn.val (create_error_response
            "AUTHENTICATION_ERROR" "Failed to authenticate with Reltio API"
            []))
      | Except.ok _ =>
        let call : HttpCall := mergeSameCall environment ids ten
        match oracle.respond call with
        | Except.error e =>
            ([Effect.tokenFetch, Effect.http call],
             if strContains e "404" then
               ToolReturn.val (create_error_response "RESOURCE_NOT_FOUND"
                 "One or more entities not found" [])
             else if strContains e "400" then
               ToolReturn.val (create_error_response "INVALID_REQUEST"
                 ("Invalid merge request: " ++ e) [])
             else
               ToolReturn.val (create_error_response "SERVER_ERROR"
                 "Failed to merge entities" []))
        | Except.ok merge_result =>
          let audit := activityLogEffects oracle environment tenant_id
            ("merge_entities_tool : Successfully merged entities "
              ++ joinSep ", " entity_ids)
          ([Effect.tokenFetch, Effect.http call] ++ audit,
           ToolReturn.val merge_result)

/-! ## Helper lemmas -/

/-- With retrying disabled, http_request makes exactly one attempt and
either returns the parsed body or raises the ValueError message. -/
lemma http_request_noretry (net : Nat → Option Headers → NetResponse)
    (fresh : Headers) (k : Nat) (hs : Option Headers) :
    http_request net fresh k hs false =
      if (net k hs).status < 400 then (Except.ok (net k hs).json, 1)
      else (Except.error (apiFailMessage (net k hs).status (net k hs).text), 1)
    := by
  unfold http_request
  simp

/-- Every http_request execution makes at most two network attempts. -/
lemma http_request_attempts_le (net : Nat → Option Headers → NetResponse)
    (fresh : Headers) (k : Nat) (hs : Option Headers) (r : Bool) :
    (http_request net fresh k hs r).2 ≤ 2 := by
  cases r with
  | false => rw [http_request_noretry]; split <;> simp
  | true =>
    unfold http_request
    dsimp only
    split
    · simp
    · split
      · rw [http_request_noretry]
        split <;> simp
      · simp

/-- C1: when the first attempt of http_request comes back 401 with an
invalid_token body and the supplied headers carry an Authorization entry,
the function re-fetches fresh headers and retries exactly once with
retry_on_401 disabled — the second attempt is consulted with the fresh
headers — so exactly two attempts occur; a 401 on the retried attempt is
not retried again but surfaces as the raised ValueError whose message
embeds the status code and the response body text.  In general no
execution ever makes more than two attempts. -/
theorem C1_http_request_retries_once_then_raises
    (net : Nat → Option Headers → NetResponse) (fresh headers : Headers)
    (h0 : (net 0 (Option.some headers)).status = 401)
    (htok : strContains (net 0 (Option.some headers)).text "invalid_token"
      = true)
    (hauth : headersHaveAuth (Option.some headers) = true)
    (h1 : (net 1 (Option.some fresh)).status = 401) :
    http_request net fresh 0 (Option.some headers) true =
      (Except.error (apiFailMessage 401 (net 1 (Option.some fresh)).text), 2)
    ∧ (∀ (net2 : Nat → Option Headers → NetResponse) (fresh2 : Headers)
        (k : Nat) (hs : Option Headers) (r : Bool),
        (http_request net2 fresh2 k hs r).2 ≤ 2) := by
  constructor
  · unfold http_request
    dsimp only
    rw [if_neg (by omega), dif_pos ⟨h0, rfl, htok, hauth⟩]
    simp only [Nat.zero_add]
    rw [http_request_noretry, if_neg (by omega)]
    rw [h1]
  · intro net2 fresh2 k hs r
    exact http_request_attempts_le net2 fresh2 k hs r

/-- A two-attempt network trace for the C1 witness: both attempts answer
401 with an invalid_token body. -/
def c1Net : Nat → Option Headers → NetResponse :=
  fun k _ =>
    if k == 0 then ⟨401, "invalid_token", PyVal.none⟩
    else ⟨401, "invalid_token expired", PyVal.none⟩

theorem C1_witness :
    http_request c1Net (reltioHeaders "fresh")
        0 (Option.some (reltioHeaders "old")) true
      = (Except.error (apiFailMessage 401 "invalid_token expired"), 2) :=
  (C1_http_request_retries_once_then_raises c1Net (reltioHeaders "fresh")
    (reltioHeaders "old") rfl (by decide) (by decide) rfl).1

/-- C4 counterexample: for a full-URL identifier whose trailing segment
abc12 satisfies the entity-id pattern, validation nevertheless rejects
the value, because the pattern is applied to the raw string (which fails
on the colon, the dots and the length) before any prefix stripping. -/
theorem C4_counterexample :
    extract_entity_id "https://test.reltio.com/entities/abc12" = "abc12"
    ∧ matchesEntityIdPattern "abc12" = true
    ∧ entityIdField "https://test.reltio.com/entities/abc12"
        = Except.error "String should match pattern" := by
  refine ⟨rfl, rfl, rfl⟩

/-- C4 (amended): identifier validation applies the fixed character-class
and length pattern to the raw supplied string first and strips the URI
prefix to the trailing segment only afterwards; hence a value is accepted
exactly when the whole supplied string matches the pattern, and the
stored identifier is then its trailing path segment.  A prefixed form
such as entities/abc12 is accepted (the pattern admits slashes) and
normalises to abc12, but a form whose prefix violates the character class
or the length bound is rejected even when its trailing segment satisfies
the pattern.  Relation ids behave identically; tenant ids are
pattern-checked without stripping. -/
theorem C4_pattern_precedes_prefix_stripping :
    (∀ v w, entityIdField v = Except.ok w →
      matchesEntityIdPattern v = true ∧ w = extract_entity_id v)
    ∧ (∀ v, matchesEntityIdPattern v = true →
        entityIdField v = Except.ok (extract_entity_id v))
    ∧ (∀ v w, relationIdField v = Except.ok w →
        matchesRelationIdPattern v = true ∧ w = extract_relation_id v)
    ∧ (∀ v, matchesTenantIdPattern v = true →
        tenantIdField v = Except.ok v)
    ∧ entityIdField "entities/abc12" = Except.ok "abc12"
    ∧ entityIdField "abc12" = Except.ok "abc12" := by
  refine ⟨?_, ?_, ?_, ?_, rfl, rfl⟩
  · intro v w h
    unfold entityIdField at h
    split at h
    · exact ⟨by assumption, by injection h with h2; exact h2.symm⟩
    · cases h
  · intro v h
    unfold entityIdField
    rw [if_pos h]
  · intro v w h
    unfold relationIdField at h
    split at h
    · exact ⟨by assumption, by injection h with h2; exact h2.symm⟩
    · cases h
  · intro v h
    unfold tenantIdField
    rw [if_pos h]

/-- Simplification only ever drops attribute names, in order: the output
name sequence is a sublist of the input name sequence. -/
lemma simplify_names_sublist (attrs : List (String × PyVal)) :
    List.Sublist ((simplify_reltio_attributes attrs).map Prod.fst)
      (attrs.map Prod.fst) := by
  induction attrs with
  | nil => simp [simplify_reltio_attributes]
  | cons hd tl ih =>
    obtain ⟨k, v⟩ := hd
    cases v with
    | list l =>
        cases l with
        | nil =>
            simp only [simplify_reltio_attributes, List.map_cons]
            exact ih.cons _
        | cons x xs =>
            cases h : simplifyReltioItems (x :: xs) with
            | nil =>
                simp only [simplify_reltio_attributes, h, List.map_cons]
                exact ih.cons _
            | cons a as =>
                cases as with
                | nil =>
                    simp only [simplify_reltio_attributes, h, List.map_cons]
                    exact ih.cons₂ _
                | cons b bs =>
                    simp only [simplify_reltio_attributes, h, List.map_cons]
                    exact ih.cons₂ _
    | none =>
        simp only [simplify_reltio_attributes, List.map_cons]
        exact ih.cons _
    | bool b =>
        simp only [simplify_reltio_attributes, List.map_cons]
        exact ih.cons _
    | int n =>
        simp only [simplify_reltio_attributes, List.map_cons]
        exact ih.cons _
    | str t =>
        simp only [simplify_reltio_attributes, List.map_cons]
        exact ih.cons _
    | dict d =>
        simp only [simplify_reltio_attributes, List.map_cons]
        exact ih.cons _

/-- C5: the attribute simplifier keeps, per name, only the list entries
that are dicts containing a value key, recurses into values that are
themselves dicts, collapses a singleton result to the bare scalar,
otherwise keeps the list in input order, and omits the name entirely when
the resulting list is empty; the three concrete examples of the
specification evaluate as stated, and names are only ever dropped, never
reordered. -/
theorem C5_simplify_reltio_attributes_spec :
    simplify_reltio_attributes
        [("FirstName", PyVal.list [PyVal.dict [("value", PyVal.str "John")]])]
      = [("FirstName", PyVal.str "John")]
    ∧ simplify_reltio_attributes
        [("Tags", PyVal.list [PyVal.dict [("value", PyVal.str "a")],
                              PyVal.dict [("value", PyVal.str "b")]])]
      = [("Tags", PyVal.list [PyVal.str "a", PyVal.str "b"])]
    ∧ simplify_reltio_attributes [("Empty", PyVal.list [])] = []
    ∧ (∀ attrs, List.Sublist
        ((simplify_reltio_attributes attrs).map Prod.fst)
        (attrs.map Prod.fst))
    ∧ (∀ key vs rest, simplifyReltioItems vs = [] →
        simplify_reltio_attributes ((key, PyVal.list vs) :: rest)
          = simplify_reltio_attributes rest)
    ∧ (∀ key vs x rest, simplifyReltioItems vs = [x] →
        simplify_reltio_attributes ((key, PyVal.list vs) :: rest)
          = (key, x) :: simplify_reltio_attributes rest)
    ∧ (∀ key vs x y t rest, simplifyReltioItems vs = x :: y :: t →
        simplify_reltio_attributes ((key, PyVal.list vs) :: rest)
          = (key, PyVal.list (x :: y :: t))
            :: simplify_reltio_attributes rest)
    ∧ (∀ dd rest,
        simplifyReltioItems (PyVal.dict [("value", PyVal.dict dd)] :: rest)
          = PyVal.dict (simplify_reltio_attributes dd)
            :: simplifyReltioItems rest)
    ∧ (∀ d rest, simplifyReltioValue d = Option.none →
        simplifyReltioItems (PyVal.dict d :: rest)
          = simplifyReltioItems rest)
    ∧ (∀ t rest, simplifyReltioItems (PyVal.str t :: rest)
        = simplifyReltioItems rest) := by
  refine ⟨?_, ?_, ?_, simplify_names_sublist, ?_, ?_, ?_, ?_, ?_, ?_⟩
  · simp [simplify_reltio_attributes, simplifyReltioItems,
      simplifyReltioValue]
  · simp [simplify_reltio_attributes, simplifyReltioItems,
      simplifyReltioValue]
  · simp [simplify_reltio_attributes, simplifyReltioItems,
      simplifyReltioValue]
  · intro key vs rest h
    cases vs with
    | nil => simp [simplify_reltio_attributes]
    | cons x xs => simp [simplify_reltio_attributes, h]
  · intro key vs x rest h
    cases vs with
    | nil => simp [simplifyReltioItems] at h
    | cons y ys => simp [simplify_reltio_attributes, h]
  · intro key vs x y t rest h
    cases vs with
    | nil => simp [simplifyReltioItems] at h
    | cons z zs => simp [simplify_reltio_attributes, h]
  · intro dd rest
    simp [simplifyReltioItems, simplifyReltioValue]
  · intro d rest h
    simp [simplifyReltioItems, h]
  · intro t rest
    simp [simplifyReltioItems]

/-- String append acts as list append on the character level. -/
lemma strToList_append (a b : String) : (a ++ b).toList = a.toList ++ b.toList :=
  rfl

/-- Sanitisation removes no parentheses: parenthesis counts survive. -/
lemma sanitize_count_paren (s : String) (c : Char)
    (hc : c = '(' ∨ c = ')') :
    (sanitizeDangerous s).toList.count c = s.toList.count c := by
  have hp : (fun x => !(dangerousChars.contains x)) c = true := by
    rcases hc with h | h <;> subst h <;> decide
  show (s.toList.filter (fun x => !(dangerousChars.contains x))).count c
      = s.toList.count c
  exact List.count_filter hp

/-- Filters accepted by validate_filter have balanced parentheses. -/
lemma validate_filter_balanced (v w : String)
    (h : validate_filter v = Except.ok w) : parenBalanced w = true := by
  unfold validate_filter at h
  split at h
  · split at h
    · injection h with h2
      subst h2
      simp only [parenBalanced] at *
      rw [sanitize_count_paren v '(' (Or.inl rfl),
        sanitize_count_paren v ')' (Or.inr rfl)]
      assumption
    · cases h
  · injection h with h2
    subst h2
    have : v = "" := by
      by_contra hne
      exact absurd hne (by assumption)
    rw [this]
    decide

/-- C9 counterexample: the filter the match-score tool actually sends (at
the default score range and entity type, with a successful oracle) is the
Postman string with three opening and two closing parentheses — an
unbalanced filter expression sent to the remote API by the tool layer. -/
theorem C9_counterexample :
    (httpCallsOf (find_matches_by_match_score "dev" okOracle 0 100
        "Individual" "tenant123" 10 0).1).map callFilter
      = [Option.some (matchScoreFilterExpression 0 100 "Individual"),
         Option.none]
    ∧ (matchScoreFilterExpression 0 100 "Individual").toList.count '(' = 3
    ∧ (matchScoreFilterExpression 0 100 "Individual").toList.count ')' = 2
    ∧ parenBalanced (matchScoreFilterExpression 0 100 "Individual")
        = false := by
  refine ⟨rfl, by decide, by decide, by decide⟩

/-- A decimal digit character is never a parenthesis. -/
lemma digitChar_ne_paren (m : Nat) :
    Nat.digitChar m ≠ '(' ∧ Nat.digitChar m ≠ ')' := by
  match m with
  | 0 | 1 | 2 | 3 | 4 | 5 | 6 | 7 | 8 | 9 | 10 | 11 | 12 | 13 | 14 | 15 =>
      exact ⟨by decide, by decide⟩
  | n + 16 =>
      exact ⟨fun h => absurd (show ('*' : Char) = '(' from h) (by decide),
             fun h => absurd (show ('*' : Char) = ')' from h) (by decide)⟩

/-- Every character toDigitsCore emits is either carried over from the
accumulator or is a digit character. -/
lemma mem_toDigitsCore (b : Nat) (fuel n : Nat) (ds : List Char) (c : Char)
    (h : c ∈ Nat.toDigitsCore b fuel n ds) :
    c ∈ ds ∨ ∃ m, c = Nat.digitChar m := by
  induction fuel generalizing n ds with
  | zero =>
      simp only [Nat.toDigitsCore] at h
      exact Or.inl h
  | succ fuel ih =>
      simp only [Nat.toDigitsCore] at h
      split at h
      · rcases List.mem_cons.mp h with h1 | h1
        · exact Or.inr ⟨n % b, h1⟩
        · exact Or.inl h1
      · rcases ih (n / b) (Nat.digitChar (n % b) :: ds) h with h1 | h1
        · rcases List.mem_cons.mp h1 with h2 | h2
          · exact Or.inr ⟨n % b, h2⟩
          · exact Or.inl h2
        · exact Or.inr h1

/-- The decimal rendering of a natural number has no parentheses. -/
lemma natRepr_count_paren (n : Nat) (c : Char)
    (hc : c = '(' ∨ c = ')') : (Nat.repr n).toList.count c = 0 := by
  have he : (Nat.repr n).toList = Nat.toDigits 10 n := rfl
  rw [he, List.count_eq_zero]
  intro h
  rcases mem_toDigitsCore 10 (n + 1) n [] c h with h1 | ⟨m, h2⟩
  · simp at h1
  · rcases hc with rfl | rfl
    · exact (digitChar_ne_paren m).1 h2.symm
    · exact (digitChar_ne_paren m).2 h2.symm

/-- The decimal rendering of an integer has no parentheses either (a
possible leading minus sign is the only non-digit). -/
lemma intToString_count_paren (i : Int) (c : Char)
    (hc : c = '(' ∨ c = ')') : (toString i).toList.count c = 0 := by
  cases i with
  | ofNat m =>
      have he : toString (Int.ofNat m) = Nat.repr m := rfl
      rw [he]
      exact natRepr_count_paren m c hc
  | negSucc m =>
      have he : toString (Int.negSucc m) = "-" ++ Nat.repr (m + 1) := rfl
      rw [he, strToList_append, List.count_append]
      have hm : ("-" : String).toList.count c = 0 := by
        rcases hc with rfl | rfl <;> decide
      rw [hm, natRepr_count_paren (m + 1) c hc]

/-- C9 (amended): every filter accepted by the filter validator is
balanced (so every filter the search tool sends balances, since its
combined filter must pass that validator); AND-combining a balanced
caller filter with the entity-type clause of a parenthesis-free entity
type preserves balance; but the filter the match-score tool builds and
sends — which passes through no filter validation — carries, for every
score range and every entity type free of parentheses (entity_type is
not sanitised, so a type with a stray parenthesis could shift the
balance), exactly one more opening than closing parenthesis, and is
therefore sent unbalanced; in particular at the default entity type. -/
theorem C9_filter_balance :
    (∀ v w, validate_filter v = Except.ok w → parenBalanced w = true)
    ∧ (∀ f t, parenBalanced f = true
        → t.toList.count '(' = t.toList.count ')'
        → parenBalanced (f ++ " and " ++ entityTypeClause t) = true)
    ∧ (∀ (st en : Int) (t : String),
        t.toList.count '(' = 0 → t.toList.count ')' = 0 →
        (matchScoreFilterExpression st en t).toList.count '('
            = (matchScoreFilterExpression st en t).toList.count ')' + 1
        ∧ parenBalanced (matchScoreFilterExpression st en t) = false)
    ∧ parenBalanced (matchScoreFilterExpression 0 100 "Individual")
        = false := by
  refine ⟨validate_filter_balanced, ?_, ?_, by decide⟩
  case refine_2 =>
    intro st en t h1 h2
    have hopen : (matchScoreFilterExpression st en t).toList.count '(' = 3 := by
      simp only [matchScoreFilterExpression, strToList_append,
        List.count_append]
      have e1 : ("(range(potentialMatches.matchScore," :
          String).toList.count '(' = 2 := by decide
      have e2 : ("," : String).toList.count '(' = 0 := by decide
      have e3 : (") and equals(type," : String).toList.count '(' = 1 := by
        decide
      have e4 : sQuote.toList.count '(' = 0 := by decide
      have e5 : ("configuration/entityTypes/" : String).toList.count '('
          = 0 := by decide
      have e6 : (")" : String).toList.count '(' = 0 := by decide
      have e7 := intToString_count_paren st '(' (Or.inl rfl)
      have e8 := intToString_count_paren en '(' (Or.inl rfl)
      omega
    have hclose : (matchScoreFilterExpression st en t).toList.count ')'
        = 2 := by
      simp only [matchScoreFilterExpression, strToList_append,
        List.count_append]
      have e1 : ("(range(potentialMatches.matchScore," :
          String).toList.count ')' = 0 := by decide
      have e2 : ("," : String).toList.count ')' = 0 := by decide
      have e3 : (") and equals(type," : String).toList.count ')' = 1 := by
        decide
      have e4 : sQuote.toList.count ')' = 0 := by decide
      have e5 : ("configuration/entityTypes/" : String).toList.count ')'
          = 0 := by decide
      have e6 : (")" : String).toList.count ')' = 1 := by decide
      have e7 := intToString_count_paren st ')' (Or.inr rfl)
      have e8 := intToString_count_paren en ')' (Or.inr rfl)
      omega
    refine ⟨by omega, ?_⟩
    simp only [parenBalanced, hopen, hclose]
    decide
  intro f t hf ht
  simp only [parenBalanced, strToList_append, List.count_append,
    entityTypeClause, beq_iff_eq] at hf ⊢
  have e1 : (" and " : String).toList.count '(' = 0 := by decide
  have e2 : (" and " : String).toList.count ')' = 0 := by decide
  have e3 : ("equals(type," : String).toList.count '(' = 1 := by decide
  have e4 : ("equals(type," : String).toList.count ')' = 0 := by decide
  have e5 : sQuote.toList.count '(' = 0 := by decide
  have e6 : sQuote.toList.count ')' = 0 := by decide
  have e7 : ("configuration/entityTypes/" : String).toList.count '(' = 0 := by
    decide
  have e8 : ("configuration/entityTypes/" : String).toList.count ')' = 0 := by
    decide
  have e9 : (")" : String).toList.count '(' = 0 := by decide
  have e10 : (")" : String).toList.count ')' = 1 := by decide
  simp only [e1, e2, e3, e4, e5, e6, e7, e8, e9, e10]
  omega

/-- An accepted filter is the sanitised form of its input. -/
lemma validate_filter_ok (v w : String)
    (h : validate_filter v = Except.ok w) : w = sanitizeDangerous v := by
  unfold validate_filter at h
  split at h
  · split at h
    · injection h with h2
      exact h2.symm
    · cases h
  · injection h with h2
    subst h2
    have hv : v = "" := by
      by_contra hne
      exact absurd hne (by assumption)
    subst hv
    rfl

/-- The fields of a successfully validated search request, in terms of
the raw inputs. -/
lemma EntitySearchRequest_validate_ok
    (filter entity_type tenant_id : String) (max_results : Int)
    (sort order select options activeness : String) (offset : Int)
    (req : ValidatedSearch)
    (h : EntitySearchRequest_validate filter entity_type tenant_id
      max_results sort order select options activeness offset
      = Except.ok req) :
    req.filter = sanitizeDangerous (strTrim filter)
    ∧ req.select = select
    ∧ req.max_results = max_results
    ∧ req.tenant_id = tenant_id
    ∧ req.offset = offset
    ∧ offset + max_results ≤ 10000 := by
  unfold EntitySearchRequest_validate at h
  repeat' split at h
  all_goals try cases h
  refine ⟨?_, rfl, rfl, rfl, rfl, by omega⟩
  exact validate_filter_ok _ _ (by assumption)

/-- Validation rejects outright whenever offset + max_results exceeds
10000 (whatever else the arguments look like). -/
lemma EntitySearchRequest_validate_offset_overflow
    (filter entity_type tenant_id : String) (max_results : Int)
    (sort order select options activeness : String) (offset : Int)
    (hsum : offset + max_results > 10000) :
    ∃ e, EntitySearchRequest_validate filter entity_type tenant_id
      max_results sort order select options activeness offset
      = Except.error e := by
  cases h : EntitySearchRequest_validate filter entity_type tenant_id
      max_results sort order select options activeness offset with
  | error e => exact ⟨e, rfl⟩
  | ok req =>
      have := (EntitySearchRequest_validate_ok filter entity_type tenant_id
        max_results sort order select options activeness offset req h).2.2.2.2.2
      omega

/-- The filter field of the search payload. -/
lemma callFilter_searchHttpCall (environment : String)
    (req : ValidatedSearch) :
    callFilter (searchHttpCall environment req) = Option.some req.filter := rfl

/-- The select field of the search payload. -/
lemma callSelect_searchHttpCall (environment : String)
    (req : ValidatedSearch) :
    callSelect (searchHttpCall environment req) = Option.some req.select := by
  simp [callSelect, searchHttpCall, searchPayload, pyGet]

/-- The max field of the search payload. -/
lemma callMax_searchHttpCall (environment : String) (req : ValidatedSearch) :
    callMax (searchHttpCall environment req)
      = Option.some (pyMin req.max_results 10) := by
  simp [callMax, searchHttpCall, searchPayload, pyGet]

/-- pyMin never exceeds its second argument. -/
lemma pyMin_le_right (a b : Int) : pyMin a b ≤ b := by
  unfold pyMin
  split <;> omega

/-- Clamping twice is the same as clamping once. -/
lemma pyMin_clamp_idem (a b : Int) : pyMin (pyMin a b) b = pyMin a b := by
  have h := pyMin_le_right a b
  show (if pyMin a b ≤ b then pyMin a b else b) = pyMin a b
  rw [if_pos h]

/-- Prepending the uri field makes uri a substring of the select list. -/
lemma strContains_uri_prepend (s : String) :
    strContains ("uri," ++ s) "uri" = true := by
  show listContainsSub ('u' :: 'r' :: 'i' :: ',' :: s.toList)
      ('u' :: 'r' :: 'i' :: []) = true
  simp [listContainsSub, listStartsWith]

/-- The VALIDATION_ERROR envelope carries its code_key. -/
lemma isErrorEnvelope_create (key m : String) :
    isErrorEnvelope (ToolReturn.val (create_error_response key m [])) key
      = true := by
  simp [isErrorEnvelope, create_error_response, pyGet]

/-- The shape of a search invocation's effect list: nothing on validation
failure, the lone token fetch on authentication or security failure, or
the token fetch followed by the one search POST — never anything else
(in particular never an audit call). -/
lemma search_entities_effects (environment : String) (oracle : NetOracle)
    (filter entity_type tenant_id : String) (max_results : Int)
    (sort order select options activeness : String) (offset : Int) :
    (search_entities environment oracle filter entity_type tenant_id
        max_results sort order select options activeness offset).1 = []
    ∨ (search_entities environment oracle filter entity_type tenant_id
        max_results sort order select options activeness offset).1
        = [Effect.tokenFetch]
    ∨ ∃ req, EntitySearchRequest_validate filter entity_type tenant_id
          (pyMin max_results 10) sort order select options activeness offset
          = Except.ok req
        ∧ (search_entities environment oracle filter entity_type tenant_id
            max_results sort order select options activeness offset).1
          = [Effect.tokenFetch, Effect.http (searchHttpCall environment req)]
    := by
  unfold search_entities
  try dsimp only
  split
  · exact Or.inl rfl
  · split
    · exact Or.inr (Or.inl rfl)
    · try dsimp only
      split
      · exact Or.inr (Or.inl rfl)
      · try dsimp only
        split
        · exact Or.inr (Or.inr ⟨_, by assumption, rfl⟩)
        · try dsimp only
          split
          · try dsimp only
            split
            · exact Or.inr (Or.inr ⟨_, by assumption, rfl⟩)
            · exact Or.inr (Or.inr ⟨_, by assumption, rfl⟩)
          · exact Or.inr (Or.inr ⟨_, by assumption, rfl⟩)

/-- Whatever the oracle does, every HTTP call a search invocation makes
carries the sanitised trimmed filter, the select string it was given
(assumed to contain uri), and a max of at most 10. -/
lemma search_entities_sent_fields (environment : String) (oracle : NetOracle)
    (F entity_type tenant_id : String) (m : Int)
    (sort order S options activeness : String) (offset : Int)
    (hS : strContains S "uri" = true) :
    (((httpCallsOf (search_entities environment oracle F entity_type
        tenant_id m sort order S options activeness offset).1).map
        callFilter).all
      (fun f => f == Option.some (sanitizeDangerous (strTrim F))) = true)
    ∧ (((httpCallsOf (search_entities environment oracle F entity_type
          tenant_id m sort order S options activeness offset).1).map
          callSelect).all
        (fun o => (o.map (fun sel => strContains sel "uri")).getD false)
        = true)
    ∧ (((httpCallsOf (search_entities environment oracle F entity_type
          tenant_id m sort order S options activeness offset).1).map
          callMax).all
        (fun o => (o.map (fun n => decide (n ≤ 10))).getD false) = true) := by
  rcases search_entities_effects environment oracle F entity_type tenant_id
      m sort order S options activeness offset with h | h | ⟨req, hreq, heff⟩
  · rw [h]
    simp [httpCallsOf]
  · rw [h]
    simp [httpCallsOf]
  · rw [heff]
    obtain ⟨hfil, hsel, hmax, -, -, -⟩ := EntitySearchRequest_validate_ok
      F entity_type tenant_id (pyMin m 10) sort order S options activeness
      offset req hreq
    refine ⟨?_, ?_, ?_⟩
    · simp [httpCallsOf, callFilter_searchHttpCall, hfil]
    · simp [httpCallsOf, callSelect_searchHttpCall, hsel, hS]
    · simp [httpCallsOf, callMax_searchHttpCall]
      have := pyMin_le_right req.max_results 10
      omega

/-- With a non-empty entity type and a non-empty filter, the combination
is the AND of the caller filter and the type clause. -/
lemma combinedSearchFilter_both (filter entity_type : String)
    (hf : filter ≠ "") (ht : entity_type ≠ "") :
    combinedSearchFilter filter entity_type
      = filter ++ " and " ++ entityTypeClause entity_type := by
  simp [combinedSearchFilter, hf, ht]

/-- With a non-empty entity type and an empty filter, the combination is
the bare type clause. -/
lemma combinedSearchFilter_only_type (entity_type : String)
    (ht : entity_type ≠ "") :
    combinedSearchFilter "" entity_type = entityTypeClause entity_type := by
  simp [combinedSearchFilter, ht]

/-- The normalised select always contains uri as a substring. -/
lemma normalizedSearchSelect_contains_uri (select : String) :
    strContains (normalizedSearchSelect select) "uri" = true := by
  unfold normalizedSearchSelect
  dsimp only
  cases hc : strContains
      (if select = "" || strTrim select = "" then "uri,label" else select)
      "uri" with
  | true =>
      simp only [hc, Bool.not_true, Bool.false_eq_true, if_false]
  | false =>
      simp only [hc, Bool.not_false, if_true]
      exact strContains_uri_prepend _

/-- C2 counterexample: invoking the search tool with entity_type
Individual and an empty filter (max_results 50, default select), the
filter actually sent to the remote API is the type clause with its single
quotes stripped by the sanitiser — not the quoted clause the claim
states — while max is clamped to 10. -/
theorem C2_counterexample :
    (httpCallsOf (search_entities_tool "dev" okOracle "" "Individual"
        "tenant123" 50 "" "asc" "uri,label" "ovOnly" "active" 0).1).map
        callFilter
      = [Option.some "equals(type,configuration/entityTypes/Individual)"]
    ∧ (httpCallsOf (search_entities_tool "dev" okOracle "" "Individual"
        "tenant123" 50 "" "asc" "uri,label" "ovOnly" "active" 0).1).map
        callMax
      = [Option.some 10]
    ∧ "equals(type,configuration/entityTypes/Individual)"
        ≠ entityTypeClause "Individual" := by
  refine ⟨rfl, rfl, by decide⟩

/-- C2 (amended): for every search-tool invocation with a non-empty
entity type, whatever HTTP call reaches the remote API carries (i) as its
filter the caller filter AND-combined with the equals(type,...) clause —
or the bare clause when the caller filter is empty — after whitespace
trimming and sanitisation, which strips the single quotes around the type
path; (ii) a select string containing "uri" (prepended when absent); and
(iii) a max of at most 10 regardless of the caller's max_results. -/
theorem C2_search_tool_remote_request
    (environment : String) (oracle : NetOracle)
    (filter entity_type tenant_id : String) (max_results : Int)
    (sort order select options activeness : String) (offset : Int)
    (htype : entity_type ≠ "") :
    (filter ≠ "" →
      ((httpCallsOf (search_entities_tool environment oracle filter
          entity_type tenant_id max_results sort order select options
          activeness offset).1).map callFilter).all
        (fun f => f == Option.some (sanitizeDangerous (strTrim
          (filter ++ " and " ++ entityTypeClause entity_type)))) = true)
    ∧ (filter = "" →
        ((httpCallsOf (search_entities_tool environment oracle filter
            entity_type tenant_id max_results sort order select options
            activeness offset).1).map callFilter).all
          (fun f => f == Option.some (sanitizeDangerous (strTrim
            (entityTypeClause entity_type)))) = true)
    ∧ ((httpCallsOf (search_entities_tool environment oracle filter
          entity_type tenant_id max_results sort order select options
          activeness offset).1).map callSelect).all
        (fun o => (o.map (fun sel => strContains sel "uri")).getD false)
        = true
    ∧ ((httpCallsOf (search_entities_tool environment oracle filter
          entity_type tenant_id max_results sort order select options
          activeness offset).1).map callMax).all
        (fun o => (o.map (fun n => decide (n ≤ 10))).getD false) = true := by
  have H := search_entities_sent_fields environment oracle
    (combinedSearchFilter filter entity_type) entity_type tenant_id
    (pyMin max_results 10) sort order (normalizedSearchSelect select)
    options activeness offset (normalizedSearchSelect_contains_uri select)
  refine ⟨?_, ?_, H.2.1, H.2.2⟩
  · intro hf
    rw [← combinedSearchFilter_both filter entity_type hf htype]
    exact H.1
  · intro hf
    subst hf
    rw [← combinedSearchFilter_only_type entity_type htype]
    exact H.1

theorem C2_witness :
    ((httpCallsOf (search_entities_tool "dev" okOracle "" "Individual"
        "tenant123" 50 "" "asc" "uri,label" "ovOnly" "active" 0).1).map
        callFilter).all
      (fun f => f == Option.some (sanitizeDangerous (strTrim
        (entityTypeClause "Individual")))) = true
    ∧ ((httpCallsOf (search_entities_tool "dev" okOracle "" "Individual"
          "tenant123" 50 "" "asc" "uri,label" "ovOnly" "active" 0).1).map
        callMax).all
      (fun o => (o.map (fun n => decide (n ≤ 10))).getD false) = true := by
  have H := C2_search_tool_remote_request "dev" okOracle "" "Individual"
    "tenant123" 50 "" "asc" "uri,label" "ovOnly" "active" 0 (by decide)
  exact ⟨H.2.1 rfl, H.2.2.2⟩

/-- A search validation error means the tool returns the VALIDATION_ERROR
envelope untouched — and performs no network effect at all. -/
lemma search_entities_validation_error (environment : String)
    (oracle : NetOracle) (filter entity_type tenant_id : String)
    (max_results : Int) (sort order select options activeness : String)
    (offset : Int) (e : String)
    (h : EntitySearchRequest_validate filter entity_type tenant_id
      (pyMin max_results 10) sort order select options activeness offset
      = Except.error e) :
    search_entities environment oracle filter entity_type tenant_id
        max_results sort order select options activeness offset
      = ([], ToolReturn.val (create_error_response "VALIDATION_ERROR"
          ("Invalid input parameters: " ++ e) [])) := by
  unfold search_entities
  simp only [h]

/-- A successfully validated match-score request respects the pagination
bound. -/
lemma MatchScoreRequest_validate_ok_bound
    (start_match_score end_match_score : Int)
    (entity_type tenant_id : String) (max_results offset : Int)
    (req : ValidatedMatchScore)
    (h : MatchScoreRequest_validate start_match_score end_match_score
      entity_type tenant_id max_results offset = Except.ok req) :
    offset + max_results ≤ 10000 := by
  unfold MatchScoreRequest_validate at h
  repeat' split at h
  all_goals try cases h
  all_goals omega

/-- A match-score validation error likewise yields the envelope with no
network effect. -/
lemma find_matches_validation_error (environment : String)
    (oracle : NetOracle) (start_match_score end_match_score : Int)
    (entity_type tenant_id : String) (max_results offset : Int) (e : String)
    (h : MatchScoreRequest_validate start_match_score end_match_score
      entity_type tenant_id (pyMin max_results 10) offset
      = Except.error e) :
    find_matches_by_match_score environment oracle start_match_score
        end_match_score entity_type tenant_id max_results offset
      = ([], ToolReturn.val (create_error_response "VALIDATION_ERROR"
          ("Invalid input parameters: " ++ e) [])) := by
  unfold find_matches_by_match_score
  simp only [h]

/-- C3 counterexample: the merge-activities tool accepts offset 9990 with
max_results 100 — a pair summing to 10090 — and proceeds to the network
(a token fetch, the activities GET, and the audit pair: four effects),
returning the upstream data rather than a VALIDATION_ERROR envelope. -/
theorem C3_counterexample :
    (get_merge_activities "dev" okOracle 1 Option.none Option.none
        Option.none Option.none "tenant123" 9990 100).1.length = 4
    ∧ isErrorEnvelope (get_merge_activities "dev" okOracle 1 Option.none
        Option.none Option.none Option.none "tenant123" 9990 100).2
        "VALIDATION_ERROR" = false
    ∧ ((9990 : Int) + 100 > 10000) := by
  refine ⟨rfl, rfl, by decide⟩

/-- C3 (amended): the offset + max_results ≤ 10000 rule is enforced by the
entity-search and match-score request models, so those tools reject such
requests with a VALIDATION_ERROR envelope and zero network effects (note
both tools first clamp the caller's max_results to min(max_results, 10));
the merge-activities request model carries no such rule, and that tool
proceeds to the network for the same pairs. -/
theorem C3_pagination_bound_rejected_before_network
    (environment : String) (oracle : NetOracle)
    (filter entity_type tenant_id : String) (max_results : Int)
    (sort order select options activeness : String) (offset : Int)
    (hsum : offset + pyMin max_results 10 > 10000) :
    ((search_entities_tool environment oracle filter entity_type tenant_id
        max_results sort order select options activeness offset).1 = []
      ∧ isErrorEnvelope (search_entities_tool environment oracle filter
          entity_type tenant_id max_results sort order select options
          activeness offset).2 "VALIDATION_ERROR" = true)
    ∧ (∀ (s e : Int) (ty ten : String) (m off : Int),
        off + pyMin m 10 > 10000 →
        (find_matches_by_match_score environment oracle s e ty ten m off).1
            = []
          ∧ isErrorEnvelope (find_matches_by_match_score environment oracle
              s e ty ten m off).2 "VALIDATION_ERROR" = true) := by
  constructor
  · have hsum2 : offset + pyMin (pyMin max_results 10) 10 > 10000 := by
      rw [pyMin_clamp_idem]
      exact hsum
    obtain ⟨e, he⟩ := EntitySearchRequest_validate_offset_overflow
      (combinedSearchFilter filter entity_type) entity_type tenant_id
      (pyMin (pyMin max_results 10) 10) sort order
      (normalizedSearchSelect select) options activeness offset hsum2
    have heq := search_entities_validation_error environment oracle
      (combinedSearchFilter filter entity_type) entity_type tenant_id
      (pyMin max_results 10) sort order (normalizedSearchSelect select)
      options activeness offset e he
    constructor
    · show (search_entities environment oracle
        (combinedSearchFilter filter entity_type) entity_type tenant_id
        (pyMin max_results 10) sort order (normalizedSearchSelect select)
        options activeness offset).1 = []
      rw [heq]
    · show isErrorEnvelope (search_entities environment oracle
        (combinedSearchFilter filter entity_type) entity_type tenant_id
        (pyMin max_results 10) sort order (normalizedSearchSelect select)
        options activeness offset).2 "VALIDATION_ERROR" = true
      rw [heq]
      exact isErrorEnvelope_create _ _
  · intro s e ty ten m off hoff
    have herr : ∃ msg, MatchScoreRequest_validate s e ty ten (pyMin m 10) off
        = Except.error msg := by
      cases h : MatchScoreRequest_validate s e ty ten (pyMin m 10) off with
      | error msg => exact ⟨msg, rfl⟩
      | ok req =>
          have := MatchScoreRequest_validate_ok_bound s e ty ten
            (pyMin m 10) off req h
          omega
    obtain ⟨msg, hmsg⟩ := herr
    have heq := find_matches_validation_error environment oracle s e ty ten
      m off msg hmsg
    rw [heq]
    exact ⟨rfl, isErrorEnvelope_create _ _⟩

theorem C3_witness :
    (search_entities_tool "dev" okOracle "" "Individual" "tenant123" 5 ""
        "asc" "uri,label" "ovOnly" "active" 10000).1 = []
    ∧ isErrorEnvelope (search_entities_tool "dev" okOracle "" "Individual"
        "tenant123" 5 "" "asc" "uri,label" "ovOnly" "active" 10000).2
        "VALIDATION_ERROR" = true :=
  (C3_pagination_bound_rejected_before_network "dev" okOracle ""
    "Individual" "tenant123" 5 "" "asc" "uri,label" "ovOnly" "active"
    10000 (by decide)).1

/-- A search invocation never performs more than two network effects:
the token fetch and the search POST.  In particular the activity-log POST
never happens, on any input. -/
lemma search_entities_effects_len (environment : String) (oracle : NetOracle)
    (filter entity_type tenant_id : String) (max_results : Int)
    (sort order select options activeness : String) (offset : Int) :
    (search_entities environment oracle filter entity_type tenant_id
        max_results sort order select options activeness offset).1.length
      ≤ 2 := by
  rcases search_entities_effects environment oracle filter entity_type
      tenant_id max_results sort order select options activeness offset
    with h | h | ⟨req, -, h⟩ <;> rw [h] <;> simp

/-- An oracle whose search response contains one entity that carries a
uri but no label field. -/
def missingLabelOracle : NetOracle :=
  ⟨Except.ok (reltioHeaders "token"),
   fun _ => Except.ok
     (PyVal.list [PyVal.dict [("uri", PyVal.str "entities/abc12")]])⟩

/-- C10 counterexample: with validation, authentication and the remote
HTTP call all succeeding (the oracle returns one entity), the search tool
does not return the normalized YAML result — the returned entity lacks
the selected label field, so the reshaping raises and the outermost
handler yields the generic SERVER_ERROR envelope instead. -/
theorem C10_counterexample :
    (search_entities "dev" missingLabelOracle "" "" "tenant123" 10 ""
        "asc" "uri,label" "ovOnly" "active" 0).2
      = ToolReturn.val (create_error_response "SERVER_ERROR"
          "An unexpected error occurred while processing your request" [])
    ∧ (search_entities "dev" missingLabelOracle "" "" "tenant123" 10 ""
        "asc" "uri,label" "ovOnly" "active" 0).1.length = 2
    ∧ missingLabelOracle.respond (searchHttpCall "dev"
        ⟨"", "", "tenant123", 10, "", "asc", "uri,label", "ovOnly",
         "active", 0⟩)
      = Except.ok
          (PyVal.list [PyVal.dict [("uri", PyVal.str "entities/abc12")]]) := by
  refine ⟨rfl, rfl, rfl⟩

/-- C10 (amended): the audit step of the search tool always fails — its
description references the unbound name entity_id_label_pairs, raising
NameError before any audit request is built — and the failure is caught,
so no audit record is ever emitted on any input (every execution performs
at most the token fetch and the one search POST); when additionally the
per-entity reshaping succeeds, the tool still returns the normalized YAML
result. -/
theorem C10_search_audit_never_emitted
    (environment : String) (oracle : NetOracle)
    (filter entity_type tenant_id : String) (max_results : Int)
    (sort order select options activeness : String) (offset : Int)
    (req : ValidatedSearch) (h : Headers) (entities filtered : List PyVal)
    (hval : EntitySearchRequest_validate filter entity_type tenant_id
      (pyMin max_results 10) sort order select options activeness offset
      = Except.ok req)
    (hauth : oracle.auth = Except.ok h)
    (hsec : validate_connection_security (get_reltio_url environment
      "entities/_search" "api" req.tenant_id) h = Except.ok ())
    (hresp : oracle.respond (searchHttpCall environment req)
      = Except.ok (PyVal.list entities))
    (hreshape : reshapeResults
      ((strSplitChar select ',').filter (fun f => f ≠ "uri")) entities
      = Except.ok filtered) :
    search_entities environment oracle filter entity_type tenant_id
        max_results sort order select options activeness offset
      = ([Effect.tokenFetch, Effect.http (searchHttpCall environment req)],
         ToolReturn.yamlDump (PyVal.list filtered))
    ∧ (∀ (environment2 : String) (oracle2 : NetOracle)
        (filter2 entity_type2 tenant_id2 : String) (max2 : Int)
        (sort2 order2 select2 options2 activeness2 : String)
        (offset2 : Int),
        (search_entities environment2 oracle2 filter2 entity_type2
            tenant_id2 max2 sort2 order2 select2 options2 activeness2
            offset2).1.length ≤ 2) := by
  constructor
  · unfold search_entities
    simp only [hval, hauth, hsec, hresp, hreshape]
  · intro environment2 oracle2 filter2 entity_type2 tenant_id2 max2 sort2
      order2 select2 options2 activeness2 offset2
    exact search_entities_effects_len environment2 oracle2 filter2
      entity_type2 tenant_id2 max2 sort2 order2 select2 options2
      activeness2 offset2

theorem C10_witness :
    search_entities "dev" okOracle "" "" "tenant123" 10 "" "asc"
        "uri,label" "ovOnly" "active" 0
      = ([Effect.tokenFetch, Effect.http (searchHttpCall "dev"
          ⟨"", "", "tenant123", 10, "", "asc", "uri,label", "ovOnly",
           "active", 0⟩)],
         ToolReturn.yamlDump (PyVal.list [])) :=
  (C10_search_audit_never_emitted "dev" okOracle "" "" "tenant123" 10 ""
    "asc" "uri,label" "ovOnly" "active" 0
    ⟨"", "", "tenant123", 10, "", "asc", "uri,label", "ovOnly", "active", 0⟩
    (reltioHeaders "token") [] [] rfl rfl rfl rfl rfl).1

/-- C6: once the transitive-match call of get_entity_matches succeeds,
a falsy (empty) result short-circuits to the no-matches message with the
source-entity endpoint never contacted (the effect list stops at the
match call); and a non-empty result whose source-entity fetch fails still
returns the matches joined with the degraded-service message — a plain
result dict, not an error envelope. -/
theorem C6_get_entity_matches_partial_failure
    (environment : String) (oracle : NetOracle)
    (entity_id tenant_id eid ten : String) (max_results : Int)
    (h : Headers) (v : PyVal) (e : String)
    (hval : EntityIdRequest_validate entity_id tenant_id
      = Except.ok (eid, ten))
    (hauth : oracle.auth = Except.ok h)
    (hsec : validate_connection_security (get_reltio_url environment
      ("entities/" ++ eid ++ "/_transitiveMatches") "api" ten) h
      = Except.ok ())
    (hresp : oracle.respond (transitiveMatchesCall environment eid ten
      (clampMatchesLimit max_results)) = Except.ok v) :
    (pyFalsy v = true →
      get_entity_matches environment oracle entity_id tenant_id max_results
        = ([Effect.tokenFetch, Effect.http (transitiveMatchesCall
              environment eid ten (clampMatchesLimit max_results))],
           ToolReturn.val (PyVal.dict
             [ ("message", PyVal.str
                 ("No potential matches found for entity " ++ eid ++ ".")),
               ("matches", PyVal.list []) ])))
    ∧ (pyFalsy v = false → pyHasLen v = true →
        oracle.respond (sourceEntityCall environment eid ten)
          = Except.error e →
        get_entity_matches environment oracle entity_id tenant_id
            max_results
          = ([Effect.tokenFetch,
              Effect.http (transitiveMatchesCall environment eid ten
                (clampMatchesLimit max_results)),
              Effect.http (sourceEntityCall environment eid ten)],
             ToolReturn.val (PyVal.dict
               [ ("message", PyVal.str
                   ("Found matches but could not retrieve source entity details: "
                     ++ e)),
                 ("matches", v) ])))
    ∧ (∀ key w msg, isErrorEnvelope (ToolReturn.val (PyVal.dict
        [("message", PyVal.str msg), ("matches", w)])) key = false) := by
  refine ⟨?_, ?_, fun key w msg => rfl⟩
  · intro hfalsy
    unfold get_entity_matches
    simp only [hval, hauth, hsec, hresp, hfalsy]
    simp
  · intro hfalsy hlen hsrc
    unfold get_entity_matches
    simp only [hval, hauth, hsec, hresp, hfalsy, hlen, hsrc]
    simp

theorem C6_witness :
    get_entity_matches "dev" okOracle "abc12" "tenant123" 25
      = ([Effect.tokenFetch, Effect.http (transitiveMatchesCall "dev"
            "abc12" "tenant123" 25)],
         ToolReturn.val (PyVal.dict
           [ ("message", PyVal.str
               "No potential matches found for entity abc12."),
             ("matches", PyVal.list []) ])) :=
  ((C6_get_entity_matches_partial_failure "dev" okOracle "abc12"
      "tenant123" "abc12" "tenant123" 25 (reltioHeaders "token")
      (PyVal.list []) "err" rfl rfl rfl rfl).1) rfl

/-- C7: when the reject-match POST succeeds with a falsy (empty or None)
body, the tool synthesises the success dict carrying the validated source
and target ids rather than propagating the empty body. -/
theorem C7_reject_match_empty_body_success
    (environment : String) (oracle : NetOracle)
    (source_id target_id tenant_id sid tid ten : String) (h : Headers)
    (v : PyVal)
    (hval : RejectMatchRequest_validate source_id target_id tenant_id
      = Except.ok (sid, tid, ten))
    (hauth : oracle.auth = Except.ok h)
    (hsec : validate_connection_security (get_reltio_url environment
      ("entities/" ++ sid ++ "/_notMatch") "api" ten) h = Except.ok ())
    (hresp : oracle.respond (rejectMatchCall environment sid tid ten)
      = Except.ok v)
    (hfalsy : pyFalsy v = true) :
    (reject_entity_match environment oracle source_id target_id
        tenant_id).2
      = ToolReturn.val (PyVal.dict
          [ ("success", PyVal.bool true),
            ("message", PyVal.str
              ("Successfully rejected match between entities " ++ sid
                ++ " and " ++ tid)) ]) := by
  unfold reject_entity_match
  simp only [hval, hauth, hsec, hresp, hfalsy]
  simp

theorem C7_witness :
    (reject_entity_match "dev" okOracle "abc12" "def34" "tenant123").2
      = ToolReturn.val (PyVal.dict
          [ ("success", PyVal.bool true),
            ("message", PyVal.str
              "Successfully rejected match between entities abc12 and def34")
          ]) :=
  C7_reject_match_empty_body_success "dev" okOracle "abc12" "def34"
    "tenant123" "abc12" "def34" "tenant123" (reltioHeaders "token")
    (PyVal.list []) rfl rfl rfl rfl rfl

/-- Prepending a list to anything leaves it as a prefix. -/
lemma listStartsWith_append (a b : List Char) :
    listStartsWith (a ++ b) a = true := by
  induction a with
  | nil => cases b with
    | nil => rfl
    | cons c cs => rfl
  | cons c cs ih => simp [listStartsWith, ih]

/-- String prefixing after append. -/
lemma strStartsWith_append (p s : String) :
    strStartsWith (p ++ s) p = true := by
  show listStartsWith (p.toList ++ s.toList) p.toList = true
  exact listStartsWith_append p.toList s.toList

/-- Every merge id normalises to the entities/ form. -/
lemma formatMergeId_prefixed (x : String) :
    strStartsWith (formatMergeId x) "entities/" = true := by
  unfold formatMergeId
  cases hc : strStartsWith x "entities/" with
  | true => simp [hc]
  | false => simp [hc, strStartsWith_append]

/-- The successfully validated merge request is the formatted id list and
the tenant. -/
lemma MergeEntitiesRequest_validate_ok (entity_ids : List String)
    (tenant_id : String) (ids : List String) (ten : String)
    (h : MergeEntitiesRequest_validate entity_ids tenant_id
      = Except.ok (ids, ten)) :
    ids = entity_ids.map formatMergeId ∧ ten = tenant_id := by
  unfold MergeEntitiesRequest_validate tenantIdField at h
  repeat' split at h
  all_goals try cases h
  constructor
  · rfl
  · rename_i heq
    split at heq
    · injection heq with h3
      exact h3.symm
    · cases heq

/-- C8: the merge tool accepts exactly two entity identifiers — any list
of another length is rejected with the VALIDATION_ERROR envelope before
any network effect — and every accepted pair is normalised so that each
identifier in the outgoing _same POST body carries the entities/ prefix
whether or not the caller supplied it. -/
theorem C8_merge_exactly_two_normalized
    (environment : String) (oracle : NetOracle) (entity_ids : List String)
    (tenant_id : String) :
    (entity_ids.length ≠ 2 →
      merge_entities environment oracle entity_ids tenant_id
        = ([], ToolReturn.val (create_error_response "VALIDATION_ERROR"
            "Invalid entity IDs: Exactly two entity IDs must be provided"
            [])))
    ∧ (∀ s ∈ entity_ids.map formatMergeId,
        strStartsWith s "entities/" = true)
    ∧ (∀ ids ten h,
        MergeEntitiesRequest_validate entity_ids tenant_id
            = Except.ok (ids, ten) →
        oracle.auth = Except.ok h →
        validate_connection_security (get_reltio_url environment
            "entities/_same" "api" ten) h = Except.ok () →
        ids = entity_ids.map formatMergeId
        ∧ (merge_entities environment oracle entity_ids tenant_id).1.take 2
          = [Effect.tokenFetch,
             Effect.http (mergeSameCall environment ids ten)]) := by
  refine ⟨?_, ?_, ?_⟩
  · intro hlen
    have hv : MergeEntitiesRequest_validate entity_ids tenant_id
        = Except.error "Exactly two entity IDs must be provided" := by
      unfold MergeEntitiesRequest_validate
      rw [if_pos hlen]
    unfold merge_entities
    simp only [hv]
    rfl
  · intro s hs
    rw [List.mem_map] at hs
    obtain ⟨x, -, hx⟩ := hs
    rw [← hx]
    exact formatMergeId_prefixed x
  · intro ids ten h hv hauth hsec
    refine ⟨(MergeEntitiesRequest_validate_ok entity_ids tenant_id ids ten
      hv).1, ?_⟩
    unfold merge_entities
    simp only [hv, hauth, hsec]
    cases hr : oracle.respond (mergeSameCall environment ids ten) with
    | error e => simp [List.take]
    | ok w => simp [List.take]
